import Mathlib

/-!
Verification of the LFSR reverse-count engine of `src/dotbot/lib/lh2.c`
(PyDotBot).  The C file consists of two constant tables (`_polynomials`,
`_end_buffers`) and one function `reverse_count_p` that reverse-steps a
17-bit LFSR state until it reaches the seed or one of the precomputed
checkpoint states.

The embedding below translates the C code into Lean on `Nat`:

* machine words become `Nat` (all intermediate values stay far below
  `2^32`, so `uint32_t` arithmetic never wraps and `Nat` is faithful;
  the single subtraction `count + 8192 * idx - 1` happens when
  `count ≥ 1`, so it never underflows either);
* the unbounded `while` loop becomes the fuel-indexed `loopRun`, where
  `none` means "did not return within the given number of iterations"
  (fuel `f+1` allows up to `f` executions of the loop body);
* the inner 17-iteration parity loop becomes `parityAux m 17`;
* the 15-iteration checkpoint-compare loop becomes `scanAux index 1 15`.
-/

set_option maxRecDepth 8000

/-- `_polynomials` table, lh2.c lines 10-15. -/
def _polynomials : List Nat := [0x0001D258, 0x00017E04, 0x0001FF6B, 0x00013F67]

/-- `_end_buffers` table, lh2.c lines 17-94. -/
def _end_buffers : List (List Nat) := [
  [0x00000000000000001, 0b10101010110011101, 0b10001010101011010, 0b11001100100000010,
   0b01100101100011111, 0b10010001101011110, 0b10100011001011111, 0b11110001010110001,
   0b10111000110011011, 0b10100110100011110, 0b11001101100010000, 0b01000101110011111,
   0b11100101011110101, 0b01001001110110111, 0b11011100110011101, 0b10000110101101011],
  [0x00000000000000001, 0b11010000110111110, 0b10110111100111100, 0b11000010101101111,
   0b00101110001101110, 0b01000011000110100, 0b00010001010011110, 0b10100101111010001,
   0b10011000000100001, 0b01110011011010110, 0b00100011101000011, 0b10111011010000101,
   0b00110010100110110, 0b01000111111100110, 0b10001101000111011, 0b00111100110011100],
  [0x00000000000000001, 0b00011011011000100, 0b01011101010010110, 0b11001011001101010,
   0b01110001111011010, 0b10110110011111010, 0b10110001110000001, 0b10001001011101001,
   0b00000010011101011, 0b01100010101111011, 0b00111000001101111, 0b10101011100111000,
   0b01111110101111111, 0b01000011110101010, 0b01001011100000011, 0b00010110111101110],
  [0x00000000000000001, 0b11011011110010110, 0b11000100000001101, 0b11100011000010110,
   0b00011111010001100, 0b11000001011110011, 0b10011101110001010, 0b00001011001111000,
   0b00111100010000101, 0b01001111001010100, 0b01011010010110011, 0b11111101010001100,
   0b00110101011011111, 0b01110110010101011, 0b00010000110100010, 0b00010111110101110]]

/-- Total read of `_polynomials[index]` (the C code never checks bounds;
out-of-range indices default to 0 here and are studied in claim C9). -/
def polynomials (index : Nat) : Nat := _polynomials.getD index 0

/-- Total read of `_end_buffers[index][idx]`. -/
def endBuffers (index idx : Nat) : Nat := (_end_buffers.getD index []).getD idx 0

/-- The inner loop of lh2.c lines 109-111: cumulative XOR of
`(m >>> ii) &&& 1` for `ii < n`; the C code runs it with `n = 17`. -/
def parityAux (m : Nat) : Nat → Nat
  | 0 => 0
  | ii+1 => parityAux m ii ^^^ ((m >>> ii) &&& 0x00000001)

/-- One reverse step of the LFSR, lh2.c lines 106-113: extract the newest
bit, shift the buffer right, recompute the feedback parity and reinsert
the reconstructed bit at position 16. -/
def revStep (index buf : Nat) : Nat :=
  let b17 := buf &&& 0x00000001
  let buffer := (buf &&& 0x0001FFFE) >>> 1
  let masked_buff := buffer &&& polynomials index
  let result := parityAux masked_buff 17 ^^^ b17
  buffer ||| (result <<< 16)

/-- One iteration of the checkpoint-compare loop body, lh2.c lines 117-120. -/
def scanStep (index : Nat) (st : Nat × Nat) (idx : Nat) : Nat × Nat :=
  if st.1 ^^^ endBuffers index idx = 0 then (endBuffers index 0, st.2 + 8192 * idx - 1)
  else st

/-- The checkpoint-compare `for` loop, lh2.c lines 116-121: runs
`scanStep` for `n` successive values starting at `idx`. -/
def scanAux (index : Nat) : Nat → Nat → Nat × Nat → Nat × Nat
  | _, 0, st => st
  | idx, n+1, st => scanAux index (idx + 1) n (scanStep index st idx)

/-- The full checkpoint scan: indices 1 to 15. -/
def checkpointScan (index : Nat) (st : Nat × Nat) : Nat × Nat :=
  scanAux index 1 15 st

/-- One full iteration of the `while` loop body (state = (buffer, count)),
lh2.c lines 104-122: reverse step, `count++`, then the checkpoint scan. -/
def loopBody (index : Nat) (st : Nat × Nat) : Nat × Nat :=
  checkpointScan index (revStep index st.1, st.2 + 1)

/-- The `while` loop, lh2.c lines 104-122, with explicit fuel; `none`
means the loop has not returned within the allowed iterations. -/
def loopRun (index : Nat) : Nat → Nat × Nat → Option Nat
  | 0, _ => none
  | fuel+1, st =>
    if st.1 = endBuffers index 0 then some st.2
    else loopRun index fuel (loopBody index st)

/-- `reverse_count_p`, lh2.c lines 96-124: mask the input to its low 21
bits (`0x0001FFFFF`), then run the loop from count 0. -/
def reverse_count_p (index bits fuel : Nat) : Option Nat :=
  loopRun index fuel (bits &&& 0x0001FFFFF, 0)

/-- The forward LFSR step of the base station: shift left within 17 bits
and insert the feedback parity `parityAux (s &&& poly) 17` as the new low
bit.  `revFwd_basis`/`fwdRev_basis` below prove it is the exact inverse of
`revStep` on 17-bit states, as the spec describes. -/
def fwdStep (index s : Nat) : Nat :=
  ((s <<< 1) &&& 0x0001FFFF) ||| parityAux (s &&& polynomials index) 17

/-- The forward trajectory: the register state after `n` forward steps
from the seed (decimal 1). -/
def traj (index n : Nat) : Nat := (fwdStep index)^[n] 1

/-- A value lies on the cycle generated by polynomial `index`. -/
def onCycle (index b : Nat) : Prop := ∃ n, traj index n = b

/-- Apply a linear map, given by its list of basis images (LSB first), to
a bit vector. -/
def applyV : List Nat → Nat → Nat
  | [], _ => 0
  | c :: cs, v => (if v % 2 = 1 then c else 0) ^^^ applyV cs (v / 2)

/-- Basis images of `n` forward steps: column `i` is `fwdStep^[n] (2^i)`. -/
def colsOf (index n : Nat) : List Nat :=
  (List.range 17).map (fun i => (fwdStep index)^[n] (2 ^ i))

/-- Composition of two linear maps given by basis images. -/
def matMul (a b : List Nat) : List Nat := b.map (applyV a)

/-! ### An Option-valued ("checked") variant of the same code, in which
every table access `_polynomials[index]` / `_end_buffers[index][idx]` is
a bounds-checked lookup; `none` signals an out-of-bounds access.  Claim
C9 relates it to the total embedding above. -/

/-- Checked read of `_polynomials[index]`. -/
def polynomialsChk (index : Nat) : Option Nat := _polynomials[index]?

/-- Checked read of `_end_buffers[index][idx]`. -/
def endBuffersChk (index idx : Nat) : Option Nat :=
  match _end_buffers[index]? with
  | none => none
  | some row => row[idx]?

/-- Checked version of `revStep` (reads `_polynomials[index]`). -/
def revStepChk (index buf : Nat) : Option Nat :=
  (polynomialsChk index).map (fun poly =>
    let b17 := buf &&& 0x00000001
    let buffer := (buf &&& 0x0001FFFE) >>> 1
    let masked_buff := buffer &&& poly
    let result := parityAux masked_buff 17 ^^^ b17
    buffer ||| (result <<< 16))

/-- Checked version of `scanStep`: reads `_end_buffers[index][idx]`, and
`_end_buffers[index][0]` on a match, exactly as the C body does. -/
def scanStepChk (index : Nat) (st : Nat × Nat) (idx : Nat) : Option (Nat × Nat) :=
  (endBuffersChk index idx).bind (fun e =>
    if st.1 ^^^ e = 0 then
      (endBuffersChk index 0).bind (fun e0 => some (e0, st.2 + 8192 * idx - 1))
    else some st)

/-- Checked version of `scanAux`. -/
def scanAuxChk (index : Nat) : Nat → Nat → Nat × Nat → Option (Nat × Nat)
  | _, 0, st => some st
  | idx, n+1, st =>
    (scanStepChk index st idx).bind (fun st2 => scanAuxChk index (idx + 1) n st2)

/-- Checked version of `loopBody`. -/
def loopBodyChk (index : Nat) (st : Nat × Nat) : Option (Nat × Nat) :=
  (revStepChk index st.1).bind (fun b => scanAuxChk index 1 15 (b, st.2 + 1))

/-- Checked version of `loopRun`: the while-condition itself reads
`_end_buffers[index][0]`, so that access is checked on every iteration;
`none` = out-of-bounds access, `some none` = fuel exhausted,
`some (some c)` = the function returns `c`. -/
def loopRunChk (index : Nat) : Nat → Nat × Nat → Option (Option Nat)
  | 0, _ => some none
  | fuel+1, st =>
    (endBuffersChk index 0).bind (fun e0 =>
      if st.1 = e0 then some (some st.2)
      else (loopBodyChk index st).bind (fun st2 => loopRunChk index fuel st2))


/-! ### Generic bit-level helper lemmas -/

theorem xor_le_one {a b : Nat} (ha : a ≤ 1) (hb : b ≤ 1) : a ^^^ b ≤ 1 := by
  interval_cases a <;> interval_cases b <;> decide

theorem shiftRight_xor (a b i : Nat) : (a ^^^ b) >>> i = (a >>> i) ^^^ (b >>> i) := by
  apply Nat.eq_of_testBit_eq
  intro j
  simp [Nat.testBit_shiftRight, Nat.testBit_xor]

theorem shiftLeft_xor (a b i : Nat) : (a ^^^ b) <<< i = (a <<< i) ^^^ (b <<< i) := by
  apply Nat.eq_of_testBit_eq
  intro j
  simp [Nat.testBit_shiftLeft, Nat.testBit_xor, Bool.and_xor_distrib_left]

theorem two_mul_xor (a b : Nat) : 2 * (a ^^^ b) = 2 * a ^^^ 2 * b := by
  simpa [Nat.shiftLeft_eq, Nat.mul_comm] using shiftLeft_xor a b 1

theorem xor_mix (a b c d : Nat) : (a ^^^ b) ^^^ (c ^^^ d) = (a ^^^ c) ^^^ (b ^^^ d) := by
  apply Nat.eq_of_testBit_eq
  intro j
  simp only [Nat.testBit_xor]
  cases a.testBit j <;> cases b.testBit j <;> cases c.testBit j <;> cases d.testBit j <;> decide

theorem or_eq_xor_of_and (a b : Nat) (h : a &&& b = 0) : a ||| b = a ^^^ b := by
  apply Nat.eq_of_testBit_eq
  intro j
  have hj : (a.testBit j && b.testBit j) = false := by
    have h2 := congrArg (fun x => Nat.testBit x j) h
    simp only [Nat.testBit_and, Nat.zero_testBit] at h2
    exact h2
  simp only [Nat.testBit_or, Nat.testBit_xor]
  cases h1 : a.testBit j <;> cases h2 : b.testBit j <;> simp_all

theorem xor_low_bit (a m : Nat) (ha : a ≤ 1) : a ^^^ 2 * m = a + 2 * m := by
  interval_cases a
  · simp
  · apply Nat.eq_of_testBit_eq
    intro j
    cases j with
    | zero =>
      simp [Nat.testBit_zero, Nat.testBit_xor, Nat.mul_mod_right, Nat.add_mul_mod_self_left]
    | succ i =>
      have h2 : (2 * m) / 2 = m := by omega
      have h3 : (1 + 2 * m) / 2 = m := by omega
      have h4 : Nat.testBit 1 (i + 1) = false := by
        simp [Nat.testBit_succ]
      rw [Nat.testBit_xor, h4, Bool.false_xor, Nat.testBit_succ, Nat.testBit_succ, h2, h3]

theorem disjoint_low_high (a b : Nat) (ha : a < 2 ^ 16) : a &&& (b <<< 16) = 0 := by
  apply Nat.eq_of_testBit_eq
  intro j
  simp only [Nat.testBit_and, Nat.testBit_shiftLeft, Nat.zero_testBit]
  by_cases hj : j < 16
  · have : ¬ (16 ≤ j) := by omega
    simp [this]
  · have h1 : a.testBit j = false := by
      apply Nat.testBit_lt_two_pow
      calc a < 2 ^ 16 := ha
        _ ≤ 2 ^ j := Nat.pow_le_pow_right (by norm_num) (by omega)
    simp [h1]

/-! ### Parity and linearity of the step functions -/

theorem parityAux_le_one (m : Nat) : ∀ n, parityAux m n ≤ 1
  | 0 => by simp [parityAux]
  | n+1 => xor_le_one (parityAux_le_one m n) Nat.and_le_right

theorem parityAux_xor (a b : Nat) : ∀ n, parityAux (a ^^^ b) n = parityAux a n ^^^ parityAux b n
  | 0 => by simp [parityAux]
  | n+1 => by
    simp only [parityAux, parityAux_xor a b n, shiftRight_xor, Nat.and_xor_distrib_right]
    exact xor_mix _ _ _ _

theorem and_one_of_shiftLeft (x m : Nat) : ((x <<< 1) &&& m) &&& 1 = 0 := by
  apply Nat.eq_of_testBit_eq
  intro j
  cases j with
  | zero => simp only [Nat.testBit_and, Nat.testBit_shiftLeft, Nat.zero_testBit] ; simp
  | succ i =>
    have h1 : Nat.testBit 1 (i + 1) = false := by simp [Nat.testBit_succ]
    simp only [Nat.testBit_and, Nat.zero_testBit, h1, Bool.and_false]

theorem fwdStep_eq_xor (p x : Nat) :
    fwdStep p x = ((x <<< 1) &&& 0x0001FFFF) ^^^ parityAux (x &&& polynomials p) 17 := by
  have hp := parityAux_le_one (x &&& polynomials p) 17
  unfold fwdStep
  apply or_eq_xor_of_and
  rcases Nat.le_one_iff_eq_zero_or_eq_one.mp hp with h | h <;> rw [h]
  all_goals first
  | exact Nat.and_zero _
  | exact and_one_of_shiftLeft x 0x0001FFFF

theorem fwdStep_xor (p a b : Nat) : fwdStep p (a ^^^ b) = fwdStep p a ^^^ fwdStep p b := by
  rw [fwdStep_eq_xor p (a ^^^ b), fwdStep_eq_xor p a, fwdStep_eq_xor p b, shiftLeft_xor,
    Nat.and_xor_distrib_right, Nat.and_xor_distrib_right, parityAux_xor]
  exact xor_mix _ _ _ _

theorem shiftRight_one_lt (x m : Nat) : (x &&& m) >>> 1 ≤ m / 2 := by
  have h1 : (x &&& m) ≤ m := Nat.and_le_right
  have h2 : (x &&& m) >>> 1 = (x &&& m) / 2 := by
    simp [Nat.shiftRight_eq_div_pow]
  omega

theorem revStep_eq_xor (p x : Nat) :
    revStep p x = ((x &&& 0x0001FFFE) >>> 1) ^^^
      ((parityAux (((x &&& 0x0001FFFE) >>> 1) &&& polynomials p) 17 ^^^ (x &&& 0x00000001)) <<< 16) := by
  unfold revStep
  apply or_eq_xor_of_and
  apply disjoint_low_high
  have := shiftRight_one_lt x 0x0001FFFE
  omega

theorem revStep_xor (p a b : Nat) : revStep p (a ^^^ b) = revStep p a ^^^ revStep p b := by
  have hT : ((a ^^^ b) &&& 0x0001FFFE) >>> 1
      = ((a &&& 0x0001FFFE) >>> 1) ^^^ ((b &&& 0x0001FFFE) >>> 1) := by
    rw [Nat.and_xor_distrib_right, shiftRight_xor]
  have hC : (a ^^^ b) &&& 0x00000001
      = (a &&& 0x00000001) ^^^ (b &&& 0x00000001) := Nat.and_xor_distrib_right
  rw [revStep_eq_xor p (a ^^^ b), revStep_eq_xor p a, revStep_eq_xor p b, hT, hC,
    Nat.and_xor_distrib_right, parityAux_xor,
    xor_mix (parityAux _ 17) (parityAux _ 17) _ _, shiftLeft_xor]
  exact xor_mix _ _ _ _

theorem fwdStep_lt (p s : Nat) : fwdStep p s < 2 ^ 17 := by
  have hpow : (2:Nat) ^ 17 = 131072 := by norm_num
  unfold fwdStep
  apply Nat.or_lt_two_pow
  · have h1 : (s <<< 1) &&& 0x0001FFFF ≤ 0x0001FFFF := Nat.and_le_right
    omega
  · have h2 := parityAux_le_one (s &&& polynomials p) 17
    omega

/-! ### Linear maps represented by their basis images -/

theorem linear_zero (g : Nat → Nat) (hg : ∀ a b, g (a ^^^ b) = g a ^^^ g b) : g 0 = 0 := by
  have h := hg 0 0
  simpa [Nat.xor_self] using h

theorem applyV_linear : ∀ (k : Nat) (g : Nat → Nat),
    (∀ a b, g (a ^^^ b) = g a ^^^ g b) → ∀ v,
    applyV ((List.range k).map (fun i => g (2 ^ i))) v = g (v % 2 ^ k)
  | 0, g, hg, v => by
    simp [applyV, Nat.mod_one, linear_zero g hg]
  | k+1, g, hg, v => by
    have hg2 : ∀ a b, g (2 * (a ^^^ b)) = g (2 * a) ^^^ g (2 * b) := fun a b => by
      rw [two_mul_xor, hg]
    have ih : applyV ((List.range k).map (fun i => g (2 * 2 ^ i))) (v / 2)
        = g (2 * (v / 2 % 2 ^ k)) :=
      applyV_linear k (fun x => g (2 * x)) hg2 (v / 2)
    have hlist : ((List.range (k+1)).map (fun i => g (2 ^ i)))
        = g 1 :: (List.range k).map (fun i => g (2 * 2 ^ i)) := by
      rw [List.range_succ_eq_map]
      simp only [List.map_cons, List.map_map, pow_zero]
      congr 1
      apply List.map_congr_left
      intro i _
      simp [Function.comp, pow_succ, Nat.mul_comm]
    have hmod : v % 2 ^ (k+1) = v % 2 + 2 * (v / 2 % 2 ^ k) := by
      rw [pow_succ, Nat.mul_comm ((2:Nat) ^ k) 2, Nat.mod_mul]
    rw [hlist]
    simp only [applyV]
    rw [ih, hmod]
    by_cases hv : v % 2 = 1
    · rw [if_pos hv, ← hg, xor_low_bit 1 _ (Nat.le_refl 1), hv]
    · have hv0 : v % 2 = 0 := by omega
      rw [if_neg hv, Nat.zero_xor, hv0, Nat.zero_add]

theorem fwdIter_xor (p n a b : Nat) :
    (fwdStep p)^[n] (a ^^^ b) = (fwdStep p)^[n] a ^^^ (fwdStep p)^[n] b := by
  induction n generalizing a b with
  | zero => simp
  | succ n ih =>
    simp only [Function.iterate_succ_apply]
    rw [fwdStep_xor, ih]

theorem fwdIter_lt (p n v : Nat) (hv : v < 2 ^ 17) : (fwdStep p)^[n] v < 2 ^ 17 := by
  cases n with
  | zero => simpa using hv
  | succ n =>
    rw [Function.iterate_succ_apply']
    exact fwdStep_lt p _

theorem applyV_colsOf (p n v : Nat) (hv : v < 2 ^ 17) :
    (fwdStep p)^[n] v = applyV (colsOf p n) v := by
  have h : applyV (colsOf p n) v = (fwdStep p)^[n] (v % 2 ^ 17) :=
    applyV_linear 17 (fun x => (fwdStep p)^[n] x) (fun a b => fwdIter_xor p n a b) v
  rw [Nat.mod_eq_of_lt hv] at h
  exact h.symm

theorem colsOf_add (p a b : Nat) : colsOf p (a + b) = matMul (colsOf p a) (colsOf p b) := by
  unfold colsOf matMul
  rw [List.map_map]
  apply List.map_congr_left
  intro i hi
  have hi17 : i < 17 := List.mem_range.mp hi
  have h2 : (2:Nat) ^ i < 2 ^ 17 := Nat.pow_lt_pow_right (by norm_num) hi17
  simp only [Function.comp]
  rw [Function.iterate_add_apply]
  exact applyV_colsOf p a _ (fwdIter_lt p b _ h2)

theorem traj_lt (p n : Nat) : traj p n < 2 ^ 17 := fwdIter_lt p n 1 (by norm_num)

theorem traj_add_applyV (p a b : Nat) : traj p (a + b) = applyV (colsOf p a) (traj p b) := by
  unfold traj
  rw [Function.iterate_add_apply]
  exact applyV_colsOf p a _ (fwdIter_lt p b 1 (by norm_num))

/-! ### The reverse step inverts the forward step on 17-bit states -/

theorem revFwd_basis :
    ∀ p < 4, ∀ i < 17,
      revStep p (fwdStep p (2 ^ i)) = 2 ^ i ∧ fwdStep p (revStep p (2 ^ i)) = 2 ^ i := by
  decide!

theorem revStep_fwdStep (p s : Nat) (hp : p < 4) (hs : s < 2 ^ 17) :
    revStep p (fwdStep p s) = s := by
  have hg : ∀ a b, revStep p (fwdStep p (a ^^^ b))
      = revStep p (fwdStep p a) ^^^ revStep p (fwdStep p b) := by
    intro a b
    rw [fwdStep_xor, revStep_xor]
  have h : applyV ((List.range 17).map (fun i => revStep p (fwdStep p (2 ^ i)))) s
      = revStep p (fwdStep p s) := by
    have h0 := applyV_linear 17 (fun x => revStep p (fwdStep p x)) hg s
    rwa [Nat.mod_eq_of_lt hs] at h0
  have hid : applyV ((List.range 17).map (fun i => (2:Nat) ^ i)) s = s := by
    have h0 := applyV_linear 17 (fun x => x) (fun a b => rfl) s
    rwa [Nat.mod_eq_of_lt hs] at h0
  have hcols : ((List.range 17).map (fun i => revStep p (fwdStep p (2 ^ i))))
      = (List.range 17).map (fun i => (2:Nat) ^ i) := by
    apply List.map_congr_left
    intro i hi
    exact (revFwd_basis p hp i (List.mem_range.mp hi)).1
  rw [← h, hcols]
  exact hid

theorem fwdStep_revStep (p s : Nat) (hp : p < 4) (hs : s < 2 ^ 17) :
    fwdStep p (revStep p s) = s := by
  have hg : ∀ a b, fwdStep p (revStep p (a ^^^ b))
      = fwdStep p (revStep p a) ^^^ fwdStep p (revStep p b) := by
    intro a b
    rw [revStep_xor, fwdStep_xor]
  have h : applyV ((List.range 17).map (fun i => fwdStep p (revStep p (2 ^ i)))) s
      = fwdStep p (revStep p s) := by
    have h0 := applyV_linear 17 (fun x => fwdStep p (revStep p x)) hg s
    rwa [Nat.mod_eq_of_lt hs] at h0
  have hid : applyV ((List.range 17).map (fun i => (2:Nat) ^ i)) s = s := by
    have h0 := applyV_linear 17 (fun x => x) (fun a b => rfl) s
    rwa [Nat.mod_eq_of_lt hs] at h0
  have hcols : ((List.range 17).map (fun i => fwdStep p (revStep p (2 ^ i))))
      = (List.range 17).map (fun i => (2:Nat) ^ i) := by
    apply List.map_congr_left
    intro i hi
    exact (revFwd_basis p hp i (List.mem_range.mp hi)).2
  rw [← h, hcols]
  exact hid

theorem revStep_traj (p n : Nat) (hp : p < 4) : revStep p (traj p (n + 1)) = traj p n := by
  unfold traj
  rw [Function.iterate_succ_apply']
  exact revStep_fwdStep p _ hp (fwdIter_lt p n 1 (by norm_num))

/-! ### Concrete basis-image matrices and checkpoint positions.
Each `colsP*` lemma pins down the basis images of `2^e` forward steps;
each `trajP*` lemma pins down the register state after the given number
of forward steps from the seed.  They are chained by `colsOf_add` /
`traj_add_applyV` (binary powering of the linear forward map). -/

theorem colsP0E1 : colsOf 0 1 = [2, 4, 8, 17, 33, 64, 129, 256, 512, 1025, 2048, 4096, 8193, 16384, 32769, 65537, 1] := by
  decide!

theorem colsP0E2 : colsOf 0 2 = [4, 8, 17, 35, 66, 129, 258, 512, 1025, 2050, 4096, 8193, 16386, 32769, 65539, 3, 2] := by
  rw [show (2:Nat) = 1 + 1 from rfl, colsOf_add, colsP0E1]
  decide!

theorem colsP0E4 : colsOf 0 4 = [17, 35, 70, 141, 266, 516, 1033, 2050, 4100, 8201, 16386, 32773, 65547, 7, 14, 12, 8] := by
  rw [show (4:Nat) = 2 + 2 from rfl, colsOf_add, colsP0E2]
  decide!

theorem colsP0E8 : colsOf 0 8 = [283, 566, 1132, 2264, 4266, 8271, 16542, 32806, 65613, 155, 45, 91, 183, 116, 232, 203, 141] := by
  rw [show (8:Nat) = 4 + 4 from rfl, colsOf_add, colsP0E4]
  decide!

theorem colsP0E16 : colsOf 0 16 = [72466, 13860, 27720, 55441, 43568, 20339, 40678, 9950, 19900, 39801, 11744, 23489, 46978, 29719, 59439, 52045, 36233] := by
  rw [show (16:Nat) = 8 + 8 from rfl, colsOf_add, colsP0E8]
  decide!

theorem colsP0E32 : colsOf 0 32 = [11035, 22071, 44142, 88285, 39585, 73304, 15536, 21115, 42230, 84461, 47297, 94595, 58119, 126228, 121384, 106315, 71053] := by
  rw [show (32:Nat) = 16 + 16 from rfl, colsOf_add, colsP0E16]
  decide!

theorem colsP0E64 : colsOf 0 64 = [52956, 105912, 80753, 30435, 8986, 35049, 70099, 60794, 121589, 112107, 107787, 84503, 37934, 124545, 118018, 87257, 26478] := by
  rw [show (64:Nat) = 32 + 32 from rfl, colsOf_add, colsP0E32]
  decide!

theorem colsP0E128 : colsOf 0 128 = [86285, 41498, 82996, 34921, 16862, 119473, 107874, 7112, 14224, 28449, 102223, 73375, 15679, 76658, 22244, 130245, 43142] := by
  rw [show (128:Nat) = 64 + 64 from rfl, colsOf_add, colsP0E64]
  decide!

theorem colsP0E256 : colsOf 0 256 = [27037, 54075, 108150, 85229, 61511, 100627, 70183, 19922, 39845, 79691, 1802, 3604, 7208, 20941, 41882, 77481, 13518] := by
  rw [show (256:Nat) = 128 + 128 from rfl, colsOf_add, colsP0E128]
  decide!

theorem colsP0E512 : colsOf 0 512 = [22901, 45802, 91605, 52138, 118305, 116023, 100974, 85416, 39761, 79523, 13362, 26724, 53448, 129252, 127433, 113383, 76986] := by
  rw [show (512:Nat) = 256 + 256 from rfl, colsOf_add, colsP0E256]
  decide!

theorem colsP0E1024 : colsOf 0 1024 = [94188, 57305, 114611, 98151, 102691, 19883, 39766, 22849, 45699, 91399, 108002, 84933, 38794, 16632, 33264, 27661, 112630] := by
  rw [show (1024:Nat) = 512 + 512 from rfl, colsOf_add, colsP0E512]
  decide!

theorem colsP0E2048 : colsOf 0 2048 = [53, 107, 214, 428, 876, 1772, 3545, 7046, 14092, 28185, 56327, 112655, 94238, 57352, 114705, 98327, 65562] := by
  rw [show (2048:Nat) = 1024 + 1024 from rfl, colsOf_add, colsP0E1024]
  decide!

theorem colsP0E4096 : colsOf 0 4096 = [1379, 2759, 5518, 11036, 21338, 41943, 83886, 35391, 70782, 10493, 21656, 43312, 86624, 41378, 82757, 33769, 66225] := by
  rw [show (4096:Nat) = 2048 + 2048 from rfl, colsOf_add, colsP0E2048]
  decide!

theorem colsP0E8192 : colsOf 0 8192 = [43835, 87670, 44268, 88537, 6281, 39465, 78930, 50079, 100159, 69247, 47044, 94088, 57104, 70938, 10804, 65363, 87453] := by
  rw [show (8192:Nat) = 4096 + 4096 from rfl, colsOf_add, colsP0E4096]
  decide!

theorem trajP0N1 : traj 0 1 = 2 := by
  decide!

theorem trajP0N3 : traj 0 3 = 8 := by
  rw [show (3:Nat) = 2 + 1 from rfl, traj_add_applyV, colsP0E2, trajP0N1]
  decide!

theorem trajP0N7 : traj 0 7 = 141 := by
  rw [show (7:Nat) = 4 + 3 from rfl, traj_add_applyV, colsP0E4, trajP0N3]
  decide!

theorem trajP0N15 : traj 0 15 = 36233 := by
  rw [show (15:Nat) = 8 + 7 from rfl, traj_add_applyV, colsP0E8, trajP0N7]
  decide!

theorem trajP0N31 : traj 0 31 = 71053 := by
  rw [show (31:Nat) = 16 + 15 from rfl, traj_add_applyV, colsP0E16, trajP0N15]
  decide!

theorem trajP0N63 : traj 0 63 = 26478 := by
  rw [show (63:Nat) = 32 + 31 from rfl, traj_add_applyV, colsP0E32, trajP0N31]
  decide!

theorem trajP0N127 : traj 0 127 = 43142 := by
  rw [show (127:Nat) = 64 + 63 from rfl, traj_add_applyV, colsP0E64, trajP0N63]
  decide!

theorem trajP0N255 : traj 0 255 = 13518 := by
  rw [show (255:Nat) = 128 + 127 from rfl, traj_add_applyV, colsP0E128, trajP0N127]
  decide!

theorem trajP0N511 : traj 0 511 = 76986 := by
  rw [show (511:Nat) = 256 + 255 from rfl, traj_add_applyV, colsP0E256, trajP0N255]
  decide!

theorem trajP0N1023 : traj 0 1023 = 112630 := by
  rw [show (1023:Nat) = 512 + 511 from rfl, traj_add_applyV, colsP0E512, trajP0N511]
  decide!

theorem trajP0N2047 : traj 0 2047 = 65562 := by
  rw [show (2047:Nat) = 1024 + 1023 from rfl, traj_add_applyV, colsP0E1024, trajP0N1023]
  decide!

theorem trajP0N4095 : traj 0 4095 = 66225 := by
  rw [show (4095:Nat) = 2048 + 2047 from rfl, traj_add_applyV, colsP0E2048, trajP0N2047]
  decide!

theorem trajP0N8191 : traj 0 8191 = 87453 := by
  rw [show (8191:Nat) = 4096 + 4095 from rfl, traj_add_applyV, colsP0E4096, trajP0N4095]
  decide!

theorem trajP0N16383 : traj 0 16383 = 71002 := by
  rw [show (16383:Nat) = 8192 + 8191 from rfl, traj_add_applyV, colsP0E8192, trajP0N8191]
  decide!

theorem trajP0N24575 : traj 0 24575 = 104706 := by
  rw [show (24575:Nat) = 8192 + 16383 from rfl, traj_add_applyV, colsP0E8192, trajP0N16383]
  decide!

theorem trajP0N32767 : traj 0 32767 = 51999 := by
  rw [show (32767:Nat) = 8192 + 24575 from rfl, traj_add_applyV, colsP0E8192, trajP0N24575]
  decide!

theorem trajP0N40959 : traj 0 40959 = 74590 := by
  rw [show (40959:Nat) = 8192 + 32767 from rfl, traj_add_applyV, colsP0E8192, trajP0N32767]
  decide!

theorem trajP0N49151 : traj 0 49151 = 83551 := by
  rw [show (49151:Nat) = 8192 + 40959 from rfl, traj_add_applyV, colsP0E8192, trajP0N40959]
  decide!

theorem trajP0N57343 : traj 0 57343 = 123569 := by
  rw [show (57343:Nat) = 8192 + 49151 from rfl, traj_add_applyV, colsP0E8192, trajP0N49151]
  decide!

theorem trajP0N65535 : traj 0 65535 = 94619 := by
  rw [show (65535:Nat) = 8192 + 57343 from rfl, traj_add_applyV, colsP0E8192, trajP0N57343]
  decide!

theorem trajP0N73727 : traj 0 73727 = 85278 := by
  rw [show (73727:Nat) = 8192 + 65535 from rfl, traj_add_applyV, colsP0E8192, trajP0N65535]
  decide!

theorem trajP0N81919 : traj 0 81919 = 105232 := by
  rw [show (81919:Nat) = 8192 + 73727 from rfl, traj_add_applyV, colsP0E8192, trajP0N73727]
  decide!

theorem trajP0N90111 : traj 0 90111 = 35743 := by
  rw [show (90111:Nat) = 8192 + 81919 from rfl, traj_add_applyV, colsP0E8192, trajP0N81919]
  decide!

theorem trajP0N98303 : traj 0 98303 = 117493 := by
  rw [show (98303:Nat) = 8192 + 90111 from rfl, traj_add_applyV, colsP0E8192, trajP0N90111]
  decide!

theorem trajP0N106495 : traj 0 106495 = 37815 := by
  rw [show (106495:Nat) = 8192 + 98303 from rfl, traj_add_applyV, colsP0E8192, trajP0N98303]
  decide!

theorem trajP0N114687 : traj 0 114687 = 113053 := by
  rw [show (114687:Nat) = 8192 + 106495 from rfl, traj_add_applyV, colsP0E8192, trajP0N106495]
  decide!

theorem trajP0N122879 : traj 0 122879 = 68971 := by
  rw [show (122879:Nat) = 8192 + 114687 from rfl, traj_add_applyV, colsP0E8192, trajP0N114687]
  decide!

theorem trajP0N131071 : traj 0 131071 = 1 := by
  rw [show (131071:Nat) = 8192 + 122879 from rfl, traj_add_applyV, colsP0E8192, trajP0N122879]
  decide!

theorem colsP1E1 : colsOf 1 1 = [2, 4, 9, 16, 32, 64, 128, 256, 512, 1025, 2049, 4097, 8193, 16385, 32769, 65536, 1] := by
  decide!

theorem colsP1E2 : colsOf 1 2 = [4, 9, 18, 32, 64, 128, 256, 512, 1025, 2051, 4099, 8195, 16387, 32771, 65538, 1, 2] := by
  rw [show (2:Nat) = 1 + 1 from rfl, colsOf_add, colsP1E1]
  decide!

theorem colsP1E4 : colsOf 1 4 = [18, 36, 73, 128, 256, 512, 1025, 2051, 4103, 8206, 16398, 32782, 65551, 12, 11, 4, 9] := by
  rw [show (4:Nat) = 2 + 2 from rfl, colsOf_add, colsP1E2]
  decide!

theorem colsP1E8 : colsOf 1 8 = [292, 585, 1171, 2051, 4103, 8206, 16412, 32824, 65648, 225, 230, 233, 246, 201, 182, 73, 146] := by
  rw [show (8:Nat) = 4 + 4 from rfl, colsOf_add, colsP1E4]
  decide!

theorem colsP1E16 : colsOf 1 16 = [74989, 18906, 37812, 900, 1800, 3600, 7201, 14403, 28807, 57614, 59120, 59661, 63223, 51459, 46827, 18747, 37494] := by
  rw [show (16:Nat) = 8 + 8 from rfl, colsOf_add, colsP1E8]
  decide!

theorem colsP1E32 : colsOf 1 32 = [74538, 18005, 36010, 14974, 29949, 59899, 119799, 108527, 85983, 40894, 7255, 72580, 70691, 68461, 79344, 84170, 37269] := by
  rw [show (32:Nat) = 16 + 16 from rfl, colsOf_add, colsP1E16]
  decide!

theorem colsP1E64 : colsOf 1 64 = [57161, 114323, 97574, 9476, 18953, 37907, 75814, 20556, 41113, 82227, 23855, 25878, 5477, 62850, 78925, 47058, 94116] := by
  rw [show (64:Nat) = 32 + 32 from rfl, colsOf_add, colsP1E32]
  decide!

theorem colsP1E128 : colsOf 1 128 = [105730, 80388, 29704, 95506, 59941, 119883, 108694, 86316, 41560, 83120, 70755, 112069, 63113, 28689, 97569, 91968, 52865] := by
  rw [show (128:Nat) = 64 + 64 from rfl, colsOf_add, colsP1E64]
  decide!

theorem colsP1E256 : colsOf 1 256 = [26290, 52580, 105160, 86818, 42564, 85128, 39184, 78368, 25664, 51329, 128944, 100818, 95510, 35998, 98191, 39340, 78681] := by
  rw [show (256:Nat) = 128 + 128 from rfl, colsOf_add, colsP1E128]
  decide!

theorem colsP1E512 : colsOf 1 512 = [55720, 111441, 91810, 5357, 10715, 21430, 42860, 85720, 40369, 80739, 44911, 100215, 120646, 96036, 14305, 46698, 93396] := by
  rw [show (512:Nat) = 256 + 256 from rfl, colsOf_add, colsP1E256]
  decide!

theorem colsP1E1024 : colsOf 1 1024 = [83336, 35601, 71202, 92620, 54169, 108339, 85606, 40140, 80280, 29488, 107496, 601, 82235, 116734, 51829, 53602, 107204] := by
  rw [show (1024:Nat) = 512 + 512 from rfl, colsOf_add, colsP1E512]
  decide!

theorem colsP1E2048 : colsOf 1 2048 = [1985, 3970, 7941, 14794, 29589, 59179, 118358, 105644, 80217, 29362, 58021, 115339, 99030, 66156, 792, 496, 992] := by
  rw [show (2048:Nat) = 1024 + 1024 from rfl, colsOf_add, colsP1E1024]
  decide!

theorem colsP1E4096 : colsOf 1 4096 = [130165, 129259, 127447, 8154, 16308, 32616, 65232, 130464, 129856, 128640, 4469, 122527, 16714, 98016, 65972, 130845, 130618] := by
  rw [show (4096:Nat) = 2048 + 2048 from rfl, colsOf_add, colsP1E2048]
  decide!

theorem colsP1E8192 : colsOf 1 8192 = [82813, 34554, 69108, 88213, 45355, 90710, 50349, 100699, 70326, 9580, 68004, 86068, 123669, 34134, 18897, 119007, 106942] := by
  rw [show (8192:Nat) = 4096 + 4096 from rfl, colsOf_add, colsP1E4096]
  decide!

theorem trajP1N1 : traj 1 1 = 2 := by
  decide!

theorem trajP1N3 : traj 1 3 = 9 := by
  rw [show (3:Nat) = 2 + 1 from rfl, traj_add_applyV, colsP1E2, trajP1N1]
  decide!

theorem trajP1N7 : traj 1 7 = 146 := by
  rw [show (7:Nat) = 4 + 3 from rfl, traj_add_applyV, colsP1E4, trajP1N3]
  decide!

theorem trajP1N15 : traj 1 15 = 37494 := by
  rw [show (15:Nat) = 8 + 7 from rfl, traj_add_applyV, colsP1E8, trajP1N7]
  decide!

theorem trajP1N31 : traj 1 31 = 37269 := by
  rw [show (31:Nat) = 16 + 15 from rfl, traj_add_applyV, colsP1E16, trajP1N15]
  decide!

theorem trajP1N63 : traj 1 63 = 94116 := by
  rw [show (63:Nat) = 32 + 31 from rfl, traj_add_applyV, colsP1E32, trajP1N31]
  decide!

theorem trajP1N127 : traj 1 127 = 52865 := by
  rw [show (127:Nat) = 64 + 63 from rfl, traj_add_applyV, colsP1E64, trajP1N63]
  decide!

theorem trajP1N255 : traj 1 255 = 78681 := by
  rw [show (255:Nat) = 128 + 127 from rfl, traj_add_applyV, colsP1E128, trajP1N127]
  decide!

theorem trajP1N511 : traj 1 511 = 93396 := by
  rw [show (511:Nat) = 256 + 255 from rfl, traj_add_applyV, colsP1E256, trajP1N255]
  decide!

theorem trajP1N1023 : traj 1 1023 = 107204 := by
  rw [show (1023:Nat) = 512 + 511 from rfl, traj_add_applyV, colsP1E512, trajP1N511]
  decide!

theorem trajP1N2047 : traj 1 2047 = 992 := by
  rw [show (2047:Nat) = 1024 + 1023 from rfl, traj_add_applyV, colsP1E1024, trajP1N1023]
  decide!

theorem trajP1N4095 : traj 1 4095 = 130618 := by
  rw [show (4095:Nat) = 2048 + 2047 from rfl, traj_add_applyV, colsP1E2048, trajP1N2047]
  decide!

theorem trajP1N8191 : traj 1 8191 = 106942 := by
  rw [show (8191:Nat) = 4096 + 4095 from rfl, traj_add_applyV, colsP1E4096, trajP1N4095]
  decide!

theorem trajP1N16383 : traj 1 16383 = 94012 := by
  rw [show (16383:Nat) = 8192 + 8191 from rfl, traj_add_applyV, colsP1E8192, trajP1N8191]
  decide!

theorem trajP1N24575 : traj 1 24575 = 99695 := by
  rw [show (24575:Nat) = 8192 + 16383 from rfl, traj_add_applyV, colsP1E8192, trajP1N16383]
  decide!

theorem trajP1N32767 : traj 1 32767 = 23662 := by
  rw [show (32767:Nat) = 8192 + 24575 from rfl, traj_add_applyV, colsP1E8192, trajP1N24575]
  decide!

theorem trajP1N40959 : traj 1 40959 = 34356 := by
  rw [show (40959:Nat) = 8192 + 32767 from rfl, traj_add_applyV, colsP1E8192, trajP1N32767]
  decide!

theorem trajP1N49151 : traj 1 49151 = 8862 := by
  rw [show (49151:Nat) = 8192 + 40959 from rfl, traj_add_applyV, colsP1E8192, trajP1N40959]
  decide!

theorem trajP1N57343 : traj 1 57343 = 84945 := by
  rw [show (57343:Nat) = 8192 + 49151 from rfl, traj_add_applyV, colsP1E8192, trajP1N49151]
  decide!

theorem trajP1N65535 : traj 1 65535 = 77857 := by
  rw [show (65535:Nat) = 8192 + 57343 from rfl, traj_add_applyV, colsP1E8192, trajP1N57343]
  decide!

theorem trajP1N73727 : traj 1 73727 = 59094 := by
  rw [show (73727:Nat) = 8192 + 65535 from rfl, traj_add_applyV, colsP1E8192, trajP1N65535]
  decide!

theorem trajP1N81919 : traj 1 81919 = 18243 := by
  rw [show (81919:Nat) = 8192 + 73727 from rfl, traj_add_applyV, colsP1E8192, trajP1N73727]
  decide!

theorem trajP1N90111 : traj 1 90111 = 95877 := by
  rw [show (90111:Nat) = 8192 + 81919 from rfl, traj_add_applyV, colsP1E8192, trajP1N81919]
  decide!

theorem trajP1N98303 : traj 1 98303 = 25910 := by
  rw [show (98303:Nat) = 8192 + 90111 from rfl, traj_add_applyV, colsP1E8192, trajP1N90111]
  decide!

theorem trajP1N106495 : traj 1 106495 = 36838 := by
  rw [show (106495:Nat) = 8192 + 98303 from rfl, traj_add_applyV, colsP1E8192, trajP1N98303]
  decide!

theorem trajP1N114687 : traj 1 114687 = 72251 := by
  rw [show (114687:Nat) = 8192 + 106495 from rfl, traj_add_applyV, colsP1E8192, trajP1N106495]
  decide!

theorem trajP1N122879 : traj 1 122879 = 31132 := by
  rw [show (122879:Nat) = 8192 + 114687 from rfl, traj_add_applyV, colsP1E8192, trajP1N114687]
  decide!

theorem trajP1N131071 : traj 1 131071 = 1 := by
  rw [show (131071:Nat) = 8192 + 122879 from rfl, traj_add_applyV, colsP1E8192, trajP1N122879]
  decide!

theorem colsP2E1 : colsOf 2 1 = [3, 5, 8, 17, 32, 65, 129, 256, 513, 1025, 2049, 4097, 8193, 16385, 32769, 65537, 1] := by
  decide!

theorem colsP2E2 : colsOf 2 2 = [6, 11, 17, 35, 65, 130, 259, 513, 1026, 2050, 4098, 8194, 16386, 32770, 65538, 2, 3] := by
  rw [show (2:Nat) = 1 + 1 from rfl, colsOf_add, colsP2E1]
  decide!

theorem colsP2E4 : colsOf 2 4 = [26, 46, 71, 143, 261, 522, 1039, 2052, 4105, 8201, 16393, 32777, 65545, 9, 8, 11, 13] := by
  rw [show (4:Nat) = 2 + 2 from rfl, colsOf_add, colsP2E2]
  decide!

theorem colsP2E8 : colsOf 2 8 = [420, 748, 1148, 2296, 4180, 8360, 16629, 32846, 65692, 156, 157, 158, 152, 149, 143, 187, 210] := by
  rw [show (8:Nat) = 4 + 4 from rfl, colsOf_add, colsP2E4]
  decide!

theorem colsP2E16 : colsOf 2 16 = [107526, 60427, 31760, 63521, 21573, 43147, 62736, 20006, 40012, 40094, 40250, 40562, 39138, 38338, 36738, 47874, 53763] := by
  rw [show (16:Nat) = 8 + 8 from rfl, colsOf_add, colsP2E8]
  decide!

theorem colsP2E32 : colsOf 2 32 = [61922, 70182, 54703, 109407, 108380, 85688, 27795, 10436, 20873, 21233, 21504, 23011, 16932, 30123, 6837, 50313, 96497] := by
  rw [show (32:Nat) = 16 + 16 from rfl, colsOf_add, colsP2E16]
  decide!

theorem colsP2E64 : colsOf 2 64 = [41203, 123157, 90841, 50611, 76692, 22313, 3745, 48560, 97121, 22065, 3217, 47568, 119635, 67156, 44123, 129093, 86137] := by
  rw [show (64:Nat) = 32 + 32 from rfl, colsOf_add, colsP2E32]
  decide!

theorem colsP2E128 : colsOf 2 128 = [28763, 37100, 86402, 41733, 79440, 27808, 43290, 74351, 17630, 63974, 99222, 96118, 40631, 85301, 59952, 107579, 79917] := by
  rw [show (128:Nat) = 64 + 64 from rfl, colsOf_add, colsP2E64]
  decide!

theorem colsP2E256 : colsOf 2 256 = [58698, 77790, 47863, 95727, 3733, 7466, 57119, 88948, 46824, 100506, 128127, 69045, 65056, 71946, 55134, 84983, 29349] := by
  rw [show (256:Nat) = 128 + 128 from rfl, colsOf_add, colsP2E128]
  decide!

theorem colsP2E512 : colsOf 2 512 = [82458, 116271, 52805, 105611, 31500, 63001, 44584, 7755, 15510, 80695, 78965, 76529, 71673, 93673, 104904, 29067, 106765] := by
  rw [show (512:Nat) = 256 + 256 from rfl, colsOf_add, colsP2E256]
  decide!

theorem colsP2E1024 : colsOf 2 1024 = [74330, 91886, 126855, 122638, 40006, 80012, 86851, 99548, 68025, 78120, 81930, 107086, 26311, 126933, 65008, 55739, 37165] := by
  rw [show (1024:Nat) = 512 + 512 from rfl, colsOf_add, colsP2E512]
  decide!

theorem colsP2E2048 : colsOf 2 2048 = [80181, 84830, 110473, 89875, 100114, 69156, 75132, 95180, 59288, 62980, 54589, 37711, 8107, 67170, 79345, 86743, 105626] := by
  rw [show (2048:Nat) = 1024 + 1024 from rfl, colsOf_add, colsP2E1024]
  decide!

theorem colsP2E4096 : colsOf 2 4096 = [60942, 78354, 35371, 70743, 50848, 101697, 128141, 67348, 3624, 62047, 68273, 64365, 71893, 57253, 86341, 19588, 30471] := by
  rw [show (4096:Nat) = 2048 + 2048 from rfl, colsOf_add, colsP2E2048]
  decide!

theorem colsP2E8192 : colsOf 2 8192 = [28041, 46746, 65724, 377, 28538, 57076, 118881, 118090, 105109, 88227, 56526, 119829, 116131, 124623, 106519, 77222, 14020] := by
  rw [show (8192:Nat) = 4096 + 4096 from rfl, colsOf_add, colsP2E4096]
  decide!

theorem trajP2N1 : traj 2 1 = 3 := by
  decide!

theorem trajP2N3 : traj 2 3 = 13 := by
  rw [show (3:Nat) = 2 + 1 from rfl, traj_add_applyV, colsP2E2, trajP2N1]
  decide!

theorem trajP2N7 : traj 2 7 = 210 := by
  rw [show (7:Nat) = 4 + 3 from rfl, traj_add_applyV, colsP2E4, trajP2N3]
  decide!

theorem trajP2N15 : traj 2 15 = 53763 := by
  rw [show (15:Nat) = 8 + 7 from rfl, traj_add_applyV, colsP2E8, trajP2N7]
  decide!

theorem trajP2N31 : traj 2 31 = 96497 := by
  rw [show (31:Nat) = 16 + 15 from rfl, traj_add_applyV, colsP2E16, trajP2N15]
  decide!

theorem trajP2N63 : traj 2 63 = 86137 := by
  rw [show (63:Nat) = 32 + 31 from rfl, traj_add_applyV, colsP2E32, trajP2N31]
  decide!

theorem trajP2N127 : traj 2 127 = 79917 := by
  rw [show (127:Nat) = 64 + 63 from rfl, traj_add_applyV, colsP2E64, trajP2N63]
  decide!

theorem trajP2N255 : traj 2 255 = 29349 := by
  rw [show (255:Nat) = 128 + 127 from rfl, traj_add_applyV, colsP2E128, trajP2N127]
  decide!

theorem trajP2N511 : traj 2 511 = 106765 := by
  rw [show (511:Nat) = 256 + 255 from rfl, traj_add_applyV, colsP2E256, trajP2N255]
  decide!

theorem trajP2N1023 : traj 2 1023 = 37165 := by
  rw [show (1023:Nat) = 512 + 511 from rfl, traj_add_applyV, colsP2E512, trajP2N511]
  decide!

theorem trajP2N2047 : traj 2 2047 = 105626 := by
  rw [show (2047:Nat) = 1024 + 1023 from rfl, traj_add_applyV, colsP2E1024, trajP2N1023]
  decide!

theorem trajP2N4095 : traj 2 4095 = 30471 := by
  rw [show (4095:Nat) = 2048 + 2047 from rfl, traj_add_applyV, colsP2E2048, trajP2N2047]
  decide!

theorem trajP2N8191 : traj 2 8191 = 14020 := by
  rw [show (8191:Nat) = 4096 + 4095 from rfl, traj_add_applyV, colsP2E4096, trajP2N4095]
  decide!

theorem trajP2N16383 : traj 2 16383 = 47766 := by
  rw [show (16383:Nat) = 8192 + 8191 from rfl, traj_add_applyV, colsP2E8192, trajP2N8191]
  decide!

theorem trajP2N24575 : traj 2 24575 = 104042 := by
  rw [show (24575:Nat) = 8192 + 16383 from rfl, traj_add_applyV, colsP2E8192, trajP2N16383]
  decide!

theorem trajP2N32767 : traj 2 32767 = 58330 := by
  rw [show (32767:Nat) = 8192 + 24575 from rfl, traj_add_applyV, colsP2E8192, trajP2N24575]
  decide!

theorem trajP2N40959 : traj 2 40959 = 93434 := by
  rw [show (40959:Nat) = 8192 + 32767 from rfl, traj_add_applyV, colsP2E8192, trajP2N32767]
  decide!

theorem trajP2N49151 : traj 2 49151 = 91009 := by
  rw [show (49151:Nat) = 8192 + 40959 from rfl, traj_add_applyV, colsP2E8192, trajP2N40959]
  decide!

theorem trajP2N57343 : traj 2 57343 = 70377 := by
  rw [show (57343:Nat) = 8192 + 49151 from rfl, traj_add_applyV, colsP2E8192, trajP2N49151]
  decide!

theorem trajP2N65535 : traj 2 65535 = 1259 := by
  rw [show (65535:Nat) = 8192 + 57343 from rfl, traj_add_applyV, colsP2E8192, trajP2N57343]
  decide!

theorem trajP2N73727 : traj 2 73727 = 50555 := by
  rw [show (73727:Nat) = 8192 + 65535 from rfl, traj_add_applyV, colsP2E8192, trajP2N65535]
  decide!

theorem trajP2N81919 : traj 2 81919 = 28783 := by
  rw [show (81919:Nat) = 8192 + 73727 from rfl, traj_add_applyV, colsP2E8192, trajP2N73727]
  decide!

theorem trajP2N90111 : traj 2 90111 = 87864 := by
  rw [show (90111:Nat) = 8192 + 81919 from rfl, traj_add_applyV, colsP2E8192, trajP2N81919]
  decide!

theorem trajP2N98303 : traj 2 98303 = 64895 := by
  rw [show (98303:Nat) = 8192 + 90111 from rfl, traj_add_applyV, colsP2E8192, trajP2N90111]
  decide!

theorem trajP2N106495 : traj 2 106495 = 34730 := by
  rw [show (106495:Nat) = 8192 + 98303 from rfl, traj_add_applyV, colsP2E8192, trajP2N98303]
  decide!

theorem trajP2N114687 : traj 2 114687 = 38659 := by
  rw [show (114687:Nat) = 8192 + 106495 from rfl, traj_add_applyV, colsP2E8192, trajP2N106495]
  decide!

theorem trajP2N122879 : traj 2 122879 = 11758 := by
  rw [show (122879:Nat) = 8192 + 114687 from rfl, traj_add_applyV, colsP2E8192, trajP2N114687]
  decide!

theorem trajP2N131071 : traj 2 131071 = 1 := by
  rw [show (131071:Nat) = 8192 + 122879 from rfl, traj_add_applyV, colsP2E8192, trajP2N122879]
  decide!

theorem colsP3E1 : colsOf 3 1 = [3, 5, 9, 16, 32, 65, 129, 256, 513, 1025, 2049, 4097, 8193, 16385, 32768, 65536, 1] := by
  decide!

theorem colsP3E2 : colsOf 3 2 = [6, 10, 19, 32, 65, 130, 259, 513, 1026, 2050, 4098, 8194, 16386, 32771, 65536, 1, 3] := by
  rw [show (2:Nat) = 1 + 1 from rfl, colsOf_add, colsP3E1]
  decide!

theorem colsP3E4 : colsOf 3 4 = [25, 42, 77, 130, 261, 523, 1038, 2052, 4104, 8200, 16392, 32777, 65546, 13, 3, 6, 12] := by
  rw [show (4:Nat) = 2 + 2 from rfl, colsOf_add, colsP3E2]
  decide!

theorem colsP3E8 : colsOf 3 8 = [414, 675, 1240, 2094, 4188, 8377, 16621, 32836, 65672, 143, 129, 157, 164, 214, 51, 103, 207] := by
  rw [show (8:Nat) = 4 + 4 from rfl, colsOf_add, colsP3E4]
  decide!

theorem colsP3E16 : colsOf 3 16 = [106181, 41807, 55386, 11889, 23779, 47559, 60747, 17490, 34981, 36751, 33242, 40304, 42021, 54926, 13272, 26545, 53090] := by
  rw [show (16:Nat) = 8 + 8 from rfl, colsOf_add, colsP3E8]
  decide!

theorem colsP3E32 : colsOf 3 32 = [94293, 102655, 20906, 119553, 108035, 84998, 125016, 41189, 82379, 127938, 38864, 24564, 118717, 61231, 44554, 89109, 47146] := by
  rw [show (32:Nat) = 16 + 16 from rfl, colsOf_add, colsP3E16]
  decide!

theorem colsP3E64 : colsOf 3 64 = [22806, 60219, 102241, 83924, 36776, 73553, 26548, 38526, 77053, 236, 22735, 59528, 100358, 84250, 52002, 104005, 76939] := by
  rw [show (64:Nat) = 32 + 32 from rfl, colsOf_add, colsP3E32]
  decide!

theorem colsP3E128 : colsOf 3 128 = [93347, 112100, 1899, 90740, 50408, 100817, 32512, 103075, 75078, 75310, 73982, 77151, 79388, 65691, 93588, 56104, 112209] := by
  rw [show (128:Nat) = 64 + 64 from rfl, colsOf_add, colsP3E64]
  decide!

theorem colsP3E256 : colsOf 3 256 = [70858, 81247, 93812, 116770, 102468, 73864, 87514, 114558, 98045, 125232, 50859, 39325, 10225, 88873, 107161, 83250, 35429] := by
  rw [show (256:Nat) = 128 + 128 from rfl, colsOf_add, colsP3E128]
  decide!

theorem colsP3E512 : colsOf 3 512 = [29926, 40235, 85681, 59780, 119560, 108048, 80070, 1387, 2774, 24907, 46705, 71685, 17645, 64829, 102044, 73017, 14963] := by
  rw [show (512:Nat) = 256 + 256 from rfl, colsOf_add, colsP3E256]
  decide!

theorem colsP3E1024 : colsOf 3 1024 = [51482, 88879, 32581, 14225, 28450, 56901, 95633, 8760, 17521, 16888, 19179, 23756, 28803, 10268, 39203, 78406, 25741] := by
  rw [show (1024:Nat) = 512 + 512 from rfl, colsOf_add, colsP3E512]
  decide!

theorem colsP3E2048 : colsOf 3 2048 = [45124, 118988, 70108, 37885, 75771, 20471, 12203, 61202, 122404, 68621, 43103, 123130, 94641, 21286, 5640, 11281, 22562] := by
  rw [show (2048:Nat) = 1024 + 1024 from rfl, colsOf_add, colsP3E1024]
  decide!

theorem colsP3E4096 : colsOf 3 4096 = [12529, 20754, 37588, 71001, 10930, 21861, 39482, 66692, 2313, 8930, 30004, 55961, 99779, 80759, 17950, 35900, 71800] := by
  rw [show (4096:Nat) = 2048 + 2048 from rfl, colsOf_add, colsP3E2048]
  decide!

theorem colsP3E8192 : colsOf 3 8192 = [93996, 110964, 3525, 95398, 59725, 119450, 51736, 64284, 128568, 33628, 27028, 113668, 5924, 82276, 126437, 121803, 112534] := by
  rw [show (8192:Nat) = 4096 + 4096 from rfl, colsOf_add, colsP3E4096]
  decide!

theorem trajP3N1 : traj 3 1 = 3 := by
  decide!

theorem trajP3N3 : traj 3 3 = 12 := by
  rw [show (3:Nat) = 2 + 1 from rfl, traj_add_applyV, colsP3E2, trajP3N1]
  decide!

theorem trajP3N7 : traj 3 7 = 207 := by
  rw [show (7:Nat) = 4 + 3 from rfl, traj_add_applyV, colsP3E4, trajP3N3]
  decide!

theorem trajP3N15 : traj 3 15 = 53090 := by
  rw [show (15:Nat) = 8 + 7 from rfl, traj_add_applyV, colsP3E8, trajP3N7]
  decide!

theorem trajP3N31 : traj 3 31 = 47146 := by
  rw [show (31:Nat) = 16 + 15 from rfl, traj_add_applyV, colsP3E16, trajP3N15]
  decide!

theorem trajP3N63 : traj 3 63 = 76939 := by
  rw [show (63:Nat) = 32 + 31 from rfl, traj_add_applyV, colsP3E32, trajP3N31]
  decide!

theorem trajP3N127 : traj 3 127 = 112209 := by
  rw [show (127:Nat) = 64 + 63 from rfl, traj_add_applyV, colsP3E64, trajP3N63]
  decide!

theorem trajP3N255 : traj 3 255 = 35429 := by
  rw [show (255:Nat) = 128 + 127 from rfl, traj_add_applyV, colsP3E128, trajP3N127]
  decide!

theorem trajP3N511 : traj 3 511 = 14963 := by
  rw [show (511:Nat) = 256 + 255 from rfl, traj_add_applyV, colsP3E256, trajP3N255]
  decide!

theorem trajP3N1023 : traj 3 1023 = 25741 := by
  rw [show (1023:Nat) = 512 + 511 from rfl, traj_add_applyV, colsP3E512, trajP3N511]
  decide!

theorem trajP3N2047 : traj 3 2047 = 22562 := by
  rw [show (2047:Nat) = 1024 + 1023 from rfl, traj_add_applyV, colsP3E1024, trajP3N1023]
  decide!

theorem trajP3N4095 : traj 3 4095 = 71800 := by
  rw [show (4095:Nat) = 2048 + 2047 from rfl, traj_add_applyV, colsP3E2048, trajP3N2047]
  decide!

theorem trajP3N8191 : traj 3 8191 = 112534 := by
  rw [show (8191:Nat) = 4096 + 4095 from rfl, traj_add_applyV, colsP3E4096, trajP3N4095]
  decide!

theorem trajP3N16383 : traj 3 16383 = 100365 := by
  rw [show (16383:Nat) = 8192 + 8191 from rfl, traj_add_applyV, colsP3E8192, trajP3N8191]
  decide!

theorem trajP3N24575 : traj 3 24575 = 116246 := by
  rw [show (24575:Nat) = 8192 + 16383 from rfl, traj_add_applyV, colsP3E8192, trajP3N16383]
  decide!

theorem trajP3N32767 : traj 3 32767 = 16012 := by
  rw [show (32767:Nat) = 8192 + 24575 from rfl, traj_add_applyV, colsP3E8192, trajP3N24575]
  decide!

theorem trajP3N40959 : traj 3 40959 = 99059 := by
  rw [show (40959:Nat) = 8192 + 32767 from rfl, traj_add_applyV, colsP3E8192, trajP3N32767]
  decide!

theorem trajP3N49151 : traj 3 49151 = 80778 := by
  rw [show (49151:Nat) = 8192 + 40959 from rfl, traj_add_applyV, colsP3E8192, trajP3N40959]
  decide!

theorem trajP3N57343 : traj 3 57343 = 5752 := by
  rw [show (57343:Nat) = 8192 + 49151 from rfl, traj_add_applyV, colsP3E8192, trajP3N49151]
  decide!

theorem trajP3N65535 : traj 3 65535 = 30853 := by
  rw [show (65535:Nat) = 8192 + 57343 from rfl, traj_add_applyV, colsP3E8192, trajP3N57343]
  decide!

theorem trajP3N73727 : traj 3 73727 = 40532 := by
  rw [show (73727:Nat) = 8192 + 65535 from rfl, traj_add_applyV, colsP3E8192, trajP3N65535]
  decide!

theorem trajP3N81919 : traj 3 81919 = 46259 := by
  rw [show (81919:Nat) = 8192 + 73727 from rfl, traj_add_applyV, colsP3E8192, trajP3N73727]
  decide!

theorem trajP3N90111 : traj 3 90111 = 129676 := by
  rw [show (90111:Nat) = 8192 + 81919 from rfl, traj_add_applyV, colsP3E8192, trajP3N81919]
  decide!

theorem trajP3N98303 : traj 3 98303 = 27359 := by
  rw [show (98303:Nat) = 8192 + 90111 from rfl, traj_add_applyV, colsP3E8192, trajP3N90111]
  decide!

theorem trajP3N106495 : traj 3 106495 = 60587 := by
  rw [show (106495:Nat) = 8192 + 98303 from rfl, traj_add_applyV, colsP3E8192, trajP3N98303]
  decide!

theorem trajP3N114687 : traj 3 114687 = 8610 := by
  rw [show (114687:Nat) = 8192 + 106495 from rfl, traj_add_applyV, colsP3E8192, trajP3N106495]
  decide!

theorem trajP3N122879 : traj 3 122879 = 12206 := by
  rw [show (122879:Nat) = 8192 + 114687 from rfl, traj_add_applyV, colsP3E8192, trajP3N114687]
  decide!

theorem trajP3N131071 : traj 3 131071 = 1 := by
  rw [show (131071:Nat) = 8192 + 122879 from rfl, traj_add_applyV, colsP3E8192, trajP3N122879]
  decide!

theorem trajP0N8192 : traj 0 8192 = 43835 := by
  rw [show (8192:Nat) = 1 + 8191 from rfl, traj_add_applyV, colsP0E1, trajP0N8191]
  decide!

theorem trajP0N8193 : traj 0 8193 = 87670 := by
  rw [show (8193:Nat) = 2 + 8191 from rfl, traj_add_applyV, colsP0E2, trajP0N8191]
  decide!

/-! ### Period, injectivity on one period, and the checkpoint table -/

theorem traj_period : ∀ p < 4, traj p 131071 = 1 := by
  intro p hp
  interval_cases p
  · exact trajP0N131071
  · exact trajP1N131071
  · exact trajP2N131071
  · exact trajP3N131071

theorem trajP0N131070 : traj 0 131070 = 65536 := by
  have h := revStep_traj 0 131070 (by norm_num)
  rw [show (131070:Nat) + 1 = 131071 from rfl, trajP0N131071] at h
  rw [← h]
  decide!

theorem fwdStep_seed : ∀ p < 4, fwdStep p 1 ≠ 1 := by decide

theorem prime_period : Nat.Prime 131071 := by norm_num

theorem traj_ne_one : ∀ p < 4, ∀ m, 0 < m → m < 131071 → traj p m ≠ 1 := by
  intro p hp m hm0 hm1 hcontra
  have hper : Function.IsPeriodicPt (fwdStep p) m 1 := hcontra
  have hperiod : Function.IsPeriodicPt (fwdStep p) 131071 1 := traj_period p hp
  have hd1 : Function.minimalPeriod (fwdStep p) 1 ∣ m := hper.minimalPeriod_dvd
  have hd2 : Function.minimalPeriod (fwdStep p) 1 ∣ 131071 := hperiod.minimalPeriod_dvd
  rcases prime_period.eq_one_or_self_of_dvd _ hd2 with h1 | h131
  · have h3 := Function.isPeriodicPt_minimalPeriod (fwdStep p) 1
    rw [h1] at h3
    have h4 : fwdStep p 1 = 1 := by simpa using h3
    exact fwdStep_seed p hp h4
  · have h5 := Nat.le_of_dvd hm0 hd1
    rw [h131] at h5
    omega

theorem revIter_traj (p : Nat) (hp : p < 4) :
    ∀ k n, k ≤ n → (revStep p)^[k] (traj p n) = traj p (n - k) := by
  intro k
  induction k with
  | zero => simp
  | succ k ih =>
    intro n hk
    obtain ⟨m, rfl⟩ : ∃ m, n = m + 1 := ⟨n - 1, by omega⟩
    rw [Function.iterate_succ_apply, revStep_traj p m hp, ih m (by omega)]
    congr 1
    omega

theorem traj_inj (p : Nat) (hp : p < 4) :
    ∀ a b, a ≤ 131070 → b ≤ 131070 → traj p a = traj p b → a = b := by
  suffices h : ∀ a b, a ≤ b → b ≤ 131070 → traj p a = traj p b → a = b by
    intro a b ha hb heq
    rcases Nat.le_total a b with hab | hba
    · exact h a b hab hb heq
    · exact (h b a hba ha heq.symm).symm
  intro a b hab hb heq
  by_contra hne
  have h2 : traj p (b - a) = 1 := by
    have h3 := congrArg (fun x => (revStep p)^[a] x) heq
    simp only at h3
    rw [revIter_traj p hp a a (Nat.le_refl a), revIter_traj p hp a b hab, Nat.sub_self] at h3
    have h0 : traj p 0 = 1 := rfl
    rw [h0] at h3
    exact h3.symm
  exact traj_ne_one p hp (b - a) (by omega) (by omega) h2

theorem traj_add_period (p : Nat) (hp : p < 4) (m : Nat) : traj p (m + 131071) = traj p m := by
  unfold traj
  rw [Function.iterate_add_apply]
  have h := traj_period p hp
  unfold traj at h
  rw [h]

theorem traj_mul_period_add (p : Nat) (hp : p < 4) :
    ∀ q r, traj p (131071 * q + r) = traj p r := by
  intro q
  induction q with
  | zero => simp
  | succ q ih =>
    intro r
    have h : 131071 * (q + 1) + r = (131071 * q + r) + 131071 := by ring
    rw [h, traj_add_period p hp, ih]

theorem traj_mod (p : Nat) (hp : p < 4) (n : Nat) : traj p n = traj p (n % 131071) := by
  conv_lhs => rw [← Nat.div_add_mod n 131071]
  exact traj_mul_period_add p hp (n / 131071) (n % 131071)

theorem end_buffers_zero : ∀ p < 4, endBuffers p 0 = 1 := by decide

theorem end_buffers_ne_zero : ∀ p < 4, ∀ k < 16, endBuffers p k ≠ 0 := by decide

theorem end_buffers_ne_one : ∀ p < 4, ∀ k, 1 ≤ k → k ≤ 15 → endBuffers p k ≠ 1 := by decide

theorem end_buffers_traj : ∀ p < 4, ∀ k, 1 ≤ k → k ≤ 15 →
    endBuffers p k = traj p (8192 * k - 1) := by
  intro p hp k hk1 hk15
  interval_cases p <;> interval_cases k <;>
    norm_num [trajP0N8191, trajP0N16383, trajP0N24575, trajP0N32767, trajP0N40959,
      trajP0N49151, trajP0N57343, trajP0N65535, trajP0N73727, trajP0N81919, trajP0N90111,
      trajP0N98303, trajP0N106495, trajP0N114687, trajP0N122879,
      trajP1N8191, trajP1N16383, trajP1N24575, trajP1N32767, trajP1N40959,
      trajP1N49151, trajP1N57343, trajP1N65535, trajP1N73727, trajP1N81919, trajP1N90111,
      trajP1N98303, trajP1N106495, trajP1N114687, trajP1N122879,
      trajP2N8191, trajP2N16383, trajP2N24575, trajP2N32767, trajP2N40959,
      trajP2N49151, trajP2N57343, trajP2N65535, trajP2N73727, trajP2N81919, trajP2N90111,
      trajP2N98303, trajP2N106495, trajP2N114687, trajP2N122879,
      trajP3N8191, trajP3N16383, trajP3N24575, trajP3N32767, trajP3N40959,
      trajP3N49151, trajP3N57343, trajP3N65535, trajP3N73727, trajP3N81919, trajP3N90111,
      trajP3N98303, trajP3N106495, trajP3N114687, trajP3N122879] <;>
    decide

/-! ### Behaviour of the checkpoint scan -/

theorem scanStep_no_match (p : Nat) (st : Nat × Nat) (idx : Nat)
    (h : st.1 ≠ endBuffers p idx) : scanStep p st idx = st := by
  unfold scanStep
  rw [if_neg]
  intro hc
  exact h (Nat.xor_eq_zero.mp hc)

theorem scanStep_match (p : Nat) (st : Nat × Nat) (idx : Nat)
    (h : st.1 = endBuffers p idx) :
    scanStep p st idx = (endBuffers p 0, st.2 + 8192 * idx - 1) := by
  unfold scanStep
  rw [if_pos (by rw [h, Nat.xor_self])]

theorem scanAux_no_match (p : Nat) :
    ∀ n idx st, (∀ j, idx ≤ j → j < idx + n → st.1 ≠ endBuffers p j) →
    scanAux p idx n st = st
  | 0, idx, st, _ => rfl
  | n+1, idx, st, h => by
    unfold scanAux
    rw [scanStep_no_match p st idx (h idx (Nat.le_refl idx) (by omega))]
    exact scanAux_no_match p n (idx+1) st (fun j h1 h2 => h j (by omega) (by omega))

theorem scanAux_match (p : Nat) :
    ∀ n idx st k, idx ≤ k → k < idx + n → st.1 = endBuffers p k →
    (∀ j, idx ≤ j → j < k → st.1 ≠ endBuffers p j) →
    (∀ j, k < j → j < idx + n → endBuffers p 0 ≠ endBuffers p j) →
    scanAux p idx n st = (endBuffers p 0, st.2 + 8192 * k - 1)
  | 0, idx, st, k, hk1, hk2, _, _, _ => absurd hk2 (by omega)
  | n+1, idx, st, k, hk1, hk2, hmatch, hbefore, hafter => by
    unfold scanAux
    by_cases hik : idx = k
    · subst hik
      rw [scanStep_match p st idx hmatch]
      exact scanAux_no_match p n (idx+1) _
        (fun j h1 h2 => hafter j (by omega) (by omega))
    · rw [scanStep_no_match p st idx (hbefore idx (Nat.le_refl idx) (by omega))]
      exact scanAux_match p n (idx+1) st k (by omega) (by omega) hmatch
        (fun j h1 h2 => hbefore j (by omega) h2)
        (fun j h1 h2 => hafter j h1 (by omega))

theorem checkpointScan_no_match (p : Nat) (st : Nat × Nat)
    (h : ∀ j, 1 ≤ j → j ≤ 15 → st.1 ≠ endBuffers p j) :
    checkpointScan p st = st :=
  scanAux_no_match p 15 1 st (fun j h1 h2 => h j h1 (by omega))

theorem checkpointScan_match (p : Nat) (st : Nat × Nat) (k : Nat)
    (hk1 : 1 ≤ k) (hk15 : k ≤ 15) (hmatch : st.1 = endBuffers p k)
    (hbefore : ∀ j, 1 ≤ j → j < k → st.1 ≠ endBuffers p j)
    (hafter : ∀ j, k < j → j ≤ 15 → endBuffers p 0 ≠ endBuffers p j) :
    checkpointScan p st = (endBuffers p 0, st.2 + 8192 * k - 1) :=
  scanAux_match p 15 1 st k hk1 (by omega) hmatch
    (fun j h1 h2 => hbefore j h1 h2) (fun j h1 h2 => hafter j h1 (by omega))

/-! ### The run lemma: from the state `n` steps after the seed, the loop
returns the count `n`, within `n` iterations if `n ≤ 8191` and within
`n % 8192 + 1` iterations otherwise. -/

theorem loopRun_mono (p : Nat) : ∀ fuel g st v,
    loopRun p fuel st = some v → fuel ≤ g → loopRun p g st = some v
  | 0, g, st, v, h, _ => by simp [loopRun] at h
  | fuel+1, g, st, v, h, hg => by
    obtain ⟨g2, rfl⟩ : ∃ g2, g = g2 + 1 := ⟨g - 1, by omega⟩
    unfold loopRun at h ⊢
    by_cases hc : st.1 = endBuffers p 0
    · rw [if_pos hc] at h ⊢
      exact h
    · rw [if_neg hc] at h ⊢
      exact loopRun_mono p fuel g2 _ v h (by omega)

theorem loopRun_traj (p : Nat) (hp : p < 4) :
    ∀ n, n ≤ 131070 → ∀ c fuel,
      (if n ≤ 8191 then n else n % 8192 + 1) < fuel →
      loopRun p fuel (traj p n, c) = some (c + n)
  | 0, h131, c, fuel, hfuel => by
    obtain ⟨f, rfl⟩ : ∃ f, fuel = f + 1 := ⟨fuel - 1, by omega⟩
    unfold loopRun
    rw [if_pos]
    · rfl
    · show traj p 0 = endBuffers p 0
      rw [end_buffers_zero p hp]
      rfl
  | n+1, h131, c, fuel, hfuel => by
    obtain ⟨f, rfl⟩ : ∃ f, fuel = f + 1 := ⟨fuel - 1, by omega⟩
    unfold loopRun
    rw [if_neg]
    · have hbody : loopBody p (traj p (n+1), c)
          = checkpointScan p (traj p n, c + 1) := by
        unfold loopBody
        rw [show (traj p (n+1), c).1 = traj p (n+1) from rfl,
          revStep_traj p n hp]
      rw [hbody]
      by_cases hmod : (n + 1) % 8192 = 0
      · -- the reverse step landed exactly on checkpoint (n+1)/8192
        have hdiv : 8192 * ((n + 1) / 8192) = n + 1 :=
          Nat.mul_div_cancel' (Nat.dvd_of_mod_eq_zero hmod)
        have hk1 : 1 ≤ (n + 1) / 8192 := by omega
        have hk15 : (n + 1) / 8192 ≤ 15 := by omega
        have hkn : 8192 * ((n + 1) / 8192) - 1 = n := by omega
        have hmatch : (traj p n, c + 1).1 = endBuffers p ((n + 1) / 8192) := by
          rw [end_buffers_traj p hp ((n + 1) / 8192) hk1 hk15, hkn]
        have hbefore : ∀ j, 1 ≤ j → j < (n + 1) / 8192 →
            (traj p n, c + 1).1 ≠ endBuffers p j := by
          intro j hj1 hj2 hcontra
          rw [end_buffers_traj p hp j hj1 (by omega)] at hcontra
          have := traj_inj p hp n (8192 * j - 1) (by omega) (by omega) hcontra
          omega
        have hafter : ∀ j, (n + 1) / 8192 < j → j ≤ 15 →
            endBuffers p 0 ≠ endBuffers p j := by
          intro j hj1 hj2
          rw [end_buffers_zero p hp]
          exact (end_buffers_ne_one p hp j (by omega) hj2).symm
        rw [checkpointScan_match p (traj p n, c + 1) ((n + 1) / 8192)
          hk1 hk15 hmatch hbefore hafter]
        have hcount : c + 1 + 8192 * ((n + 1) / 8192) - 1 = c + (n + 1) := by omega
        rw [if_neg (by omega : ¬ n + 1 ≤ 8191)] at hfuel
        obtain ⟨f2, rfl⟩ : ∃ f2, f = f2 + 1 := ⟨f - 1, by omega⟩
        unfold loopRun
        rw [if_pos rfl]
        rw [hcount]
      · -- no checkpoint matches: keep reversing
        have hnom : ∀ j, 1 ≤ j → j ≤ 15 → (traj p n, c + 1).1 ≠ endBuffers p j := by
          intro j hj1 hj2 hcontra
          rw [end_buffers_traj p hp j hj1 hj2] at hcontra
          have := traj_inj p hp n (8192 * j - 1) (by omega) (by omega) hcontra
          omega
        rw [checkpointScan_no_match p (traj p n, c + 1) hnom]
        have hfuel2 : (if n ≤ 8191 then n else n % 8192 + 1) < f := by
          rcases Nat.lt_or_ge n 8192 with h1 | h1
          · rw [if_pos (by omega : n ≤ 8191)]
            by_cases hn1 : n + 1 ≤ 8191
            · rw [if_pos hn1] at hfuel
              omega
            · exfalso
              apply hmod
              omega
          · rw [if_neg (by omega : ¬ n ≤ 8191)]
            rw [if_neg (by omega : ¬ n + 1 ≤ 8191)] at hfuel
            omega
        have h2 := loopRun_traj p hp n (by omega) (c + 1) f hfuel2
        rw [h2]
        congr 1
        omega
    · show ¬ traj p (n+1) = endBuffers p 0
      rw [end_buffers_zero p hp]
      exact traj_ne_one p hp (n+1) (by omega) (by omega)

/-! ### Master results about `reverse_count_p` -/

theorem mask21_eq (x : Nat) (hx : x < 2 ^ 21) : x &&& 0x0001FFFFF = x := by
  have h2 : (0x0001FFFFF : Nat) = 2 ^ 21 - 1 := by norm_num
  rw [h2, Nat.and_pow_two_sub_one_eq_mod, Nat.mod_eq_of_lt hx]

theorem reverse_count_traj (p : Nat) (hp : p < 4) (n : Nat) (hn : n ≤ 131070) :
    reverse_count_p p (traj p n) 8193 = some n := by
  unfold reverse_count_p
  rw [mask21_eq _ (lt_trans (traj_lt p n) (by norm_num))]
  have h := loopRun_traj p hp n hn 0 8193 (by
    by_cases h : n ≤ 8191
    · rw [if_pos h]
      omega
    · rw [if_neg h]
      omega)
  simpa using h

theorem reverse_count_checkpoint (p : Nat) (hp : p < 4) (k : Nat)
    (hk1 : 1 ≤ k) (hk15 : k ≤ 15) :
    reverse_count_p p (endBuffers p k) 8193 = some (8192 * k - 1) := by
  rw [end_buffers_traj p hp k hk1 hk15]
  exact reverse_count_traj p hp (8192 * k - 1) (by omega)

theorem loopRun_step (p fuel : Nat) (st : Nat × Nat) (h : st.1 ≠ endBuffers p 0) :
    loopRun p (fuel + 1) st = loopRun p fuel (loopBody p st) := by
  conv_lhs => unfold loopRun
  rw [if_neg h]

theorem end_buffers_distinct : ∀ p < 4, ∀ j < 16, ∀ k < 16,
    j ≠ k → endBuffers p j ≠ endBuffers p k := by
  decide!

theorem loopBody_match (p : Nat) (hp : p < 4) (buf c k : Nat) (hk1 : 1 ≤ k) (hk15 : k ≤ 15)
    (h : revStep p buf = endBuffers p k) :
    loopBody p (buf, c) = (endBuffers p 0, c + 8192 * k) := by
  unfold loopBody
  have hscan := checkpointScan_match p (revStep p buf, c + 1) k hk1 hk15 h
    (fun j hj1 hj2 => by
      rw [show (revStep p buf, c + 1).1 = revStep p buf from rfl, h]
      exact end_buffers_distinct p hp k (by omega) j (by omega) (by omega))
    (fun j hj1 hj2 =>
      end_buffers_distinct p hp 0 (by omega) j (by omega) (by omega))
  rw [hscan]
  congr 1
  omega

theorem loopRun_match (p : Nat) (hp : p < 4) (buf c k fuel : Nat)
    (hk1 : 1 ≤ k) (hk15 : k ≤ 15)
    (hbuf : buf ≠ endBuffers p 0) (h : revStep p buf = endBuffers p k) :
    loopRun p (fuel + 2) (buf, c) = some (c + 8192 * k) := by
  rw [show fuel + 2 = (fuel + 1) + 1 from rfl,
    loopRun_step p (fuel + 1) (buf, c) hbuf,
    loopBody_match p hp buf c k hk1 hk15 h]
  unfold loopRun
  rw [if_pos rfl]

/-! ### The all-zero buffer is a fixed point of the loop body -/

theorem parityAux_zero : ∀ n, parityAux 0 n = 0
  | 0 => rfl
  | n+1 => by simp [parityAux, parityAux_zero n]

theorem revStep_zero (p : Nat) : revStep p 0 = 0 := by
  unfold revStep
  simp [parityAux_zero]

theorem loopBody_zero (p : Nat) (hp : p < 4) (c : Nat) : loopBody p (0, c) = (0, c + 1) := by
  unfold loopBody
  rw [show ((0:Nat), c).1 = (0:Nat) from rfl, revStep_zero]
  exact checkpointScan_no_match p (0, c + 1) (fun j hj1 hj2 hc =>
    end_buffers_ne_zero p hp j (by omega) hc.symm)

theorem loopBodyIter_zero (p : Nat) (hp : p < 4) (c : Nat) :
    ∀ n, (loopBody p)^[n] (0, c) = (0, c + n)
  | 0 => by simp
  | n+1 => by
    rw [Function.iterate_succ_apply, loopBody_zero p hp c,
      loopBodyIter_zero p hp (c + 1) n]
    congr 1
    omega

theorem loopRun_zero (p : Nat) (hp : p < 4) : ∀ fuel c, loopRun p fuel (0, c) = none
  | 0, c => rfl
  | fuel+1, c => by
    unfold loopRun
    rw [if_neg (by
      rw [end_buffers_zero p hp]
      simp), loopBody_zero p hp c]
    exact loopRun_zero p hp fuel (c + 1)

/-! ### Concrete runs used by the counterexamples -/

theorem reverse_count_131073 : reverse_count_p 0 131073 8193 = some 131071 := by
  unfold reverse_count_p
  rw [mask21_eq 131073 (by norm_num), show (8193:Nat) = 8192 + 1 from rfl,
    loopRun_step 0 8192 (131073, 0) (by decide),
    show loopBody 0 (131073, 0) = (65536, 1) from by decide!,
    show (65536:Nat) = traj 0 131070 from trajP0N131070.symm]
  have h3 := loopRun_traj 0 (by norm_num) 131070 (by norm_num) 1 8192 (by decide)
  simpa using h3

/-! ### Checked and unchecked embeddings agree for in-range indices -/

theorem polynomialsChk_eq : ∀ p < 4, polynomialsChk p = some (polynomials p) := by decide

theorem endBuffersChk_eq : ∀ p < 4, ∀ idx < 16,
    endBuffersChk p idx = some (endBuffers p idx) := by decide

theorem endBuffersChk_oob (p : Nat) (hp : 4 ≤ p) (idx : Nat) : endBuffersChk p idx = none := by
  unfold endBuffersChk
  rw [List.getElem?_eq_none (by simpa [_end_buffers] using hp)]

theorem revStepChk_eq (p : Nat) (hp : p < 4) (buf : Nat) :
    revStepChk p buf = some (revStep p buf) := by
  unfold revStepChk
  rw [polynomialsChk_eq p hp]
  rfl

theorem scanStepChk_eq (p : Nat) (hp : p < 4) (idx : Nat) (hidx : idx < 16) (st : Nat × Nat) :
    scanStepChk p st idx = some (scanStep p st idx) := by
  unfold scanStepChk scanStep
  rw [endBuffersChk_eq p hp idx hidx, endBuffersChk_eq p hp 0 (by omega)]
  simp only [Option.some_bind]
  by_cases hc : st.1 ^^^ endBuffers p idx = 0
  · rw [if_pos hc, if_pos hc]
  · rw [if_neg hc, if_neg hc]

theorem scanAuxChk_eq (p : Nat) (hp : p < 4) :
    ∀ n idx st, idx + n ≤ 16 → scanAuxChk p idx n st = some (scanAux p idx n st)
  | 0, idx, st, _ => rfl
  | n+1, idx, st, h => by
    unfold scanAuxChk scanAux
    rw [scanStepChk_eq p hp idx (by omega) st]
    simp only [Option.some_bind]
    exact scanAuxChk_eq p hp n (idx + 1) _ (by omega)

theorem loopBodyChk_eq (p : Nat) (hp : p < 4) (st : Nat × Nat) :
    loopBodyChk p st = some (loopBody p st) := by
  unfold loopBodyChk loopBody checkpointScan
  rw [revStepChk_eq p hp]
  simp only [Option.some_bind]
  exact scanAuxChk_eq p hp 15 1 _ (by omega)

theorem loopRunChk_eq (p : Nat) (hp : p < 4) :
    ∀ fuel st, loopRunChk p fuel st = some (loopRun p fuel st)
  | 0, st => rfl
  | fuel+1, st => by
    unfold loopRunChk
    rw [endBuffersChk_eq p hp 0 (by omega)]
    simp only [Option.some_bind]
    by_cases hc : st.1 = endBuffers p 0
    · rw [if_pos hc]
      have hr : loopRun p (fuel + 1) st = some st.2 := by
        conv_lhs => unfold loopRun
        rw [if_pos hc]
      rw [hr]
    · rw [if_neg hc, loopBodyChk_eq p hp st]
      simp only [Option.some_bind]
      rw [loopRunChk_eq p hp fuel (loopBody p st), loopRun_step p fuel st hc]

theorem loopRunChk_oob (p : Nat) (hp : 4 ≤ p) (fuel : Nat) (st : Nat × Nat) :
    loopRunChk p (fuel + 1) st = none := by
  unfold loopRunChk
  rw [endBuffersChk_oob p hp 0]
  rfl

/-! ### Buffer-width invariants of the loop body -/

theorem revStep_lt (p b : Nat) : revStep p b < 2 ^ 17 := by
  have hp16 : (2:Nat) ^ 16 = 65536 := by norm_num
  have hp17 : (2:Nat) ^ 17 = 131072 := by norm_num
  rw [revStep_eq_xor]
  apply Nat.xor_lt_two_pow
  · have h := shiftRight_one_lt b 0x0001FFFE
    rw [hp17]
    omega
  · rw [Nat.shiftLeft_eq, hp16, hp17]
    have h1 := parityAux_le_one (((b &&& 0x0001FFFE) >>> 1) &&& polynomials p) 17
    have h2 : b &&& 0x00000001 ≤ 1 := Nat.and_le_right
    have h3 := xor_le_one h1 h2
    omega

theorem scanAux_fst (p : Nat) : ∀ n idx st,
    (scanAux p idx n st).1 = st.1 ∨ (scanAux p idx n st).1 = endBuffers p 0
  | 0, idx, st => Or.inl rfl
  | n+1, idx, st => by
    unfold scanAux
    rcases scanAux_fst p n (idx + 1) (scanStep p st idx) with h | h
    · rw [h]
      unfold scanStep
      by_cases hc : st.1 ^^^ endBuffers p idx = 0
      · rw [if_pos hc]
        exact Or.inr rfl
      · rw [if_neg hc]
        exact Or.inl rfl
    · exact Or.inr h

theorem loopBody_lt (p : Nat) (hp : p < 4) (st : Nat × Nat) : (loopBody p st).1 < 2 ^ 17 := by
  unfold loopBody checkpointScan
  rcases scanAux_fst p 15 1 (revStep p st.1, st.2 + 1) with h | h
  · rw [h]
    exact revStep_lt p st.1
  · rw [h, end_buffers_zero p hp]
    norm_num

theorem revStep_low17 (p b : Nat) : revStep p (b &&& 0x0001FFFF) = revStep p b := by
  have h1 : (b &&& 0x0001FFFF) &&& 0x00000001 = b &&& 0x00000001 := by
    rw [Nat.and_assoc, show ((0x0001FFFF:Nat) &&& 0x00000001) = 0x00000001 from by decide]
  have h2 : (b &&& 0x0001FFFF) &&& 0x0001FFFE = b &&& 0x0001FFFE := by
    rw [Nat.and_assoc, show ((0x0001FFFF:Nat) &&& 0x0001FFFE) = 0x0001FFFE from by decide]
  unfold revStep
  rw [h1, h2]

theorem loopBody_low17 (p b c : Nat) :
    loopBody p (b &&& 0x0001FFFF, c) = loopBody p (b, c) := by
  unfold loopBody
  rw [show (b &&& 0x0001FFFF, c).1 = b &&& 0x0001FFFF from rfl,
    show (b, c).1 = b from rfl, revStep_low17]

/-! ### Claim theorems -/

/-- C1 counterexample: the claim says `reverse_count_p p (_end_buffers[p][k])`
returns `8192 * k`; already at `p = 0`, `k = 1` the function returns 8191,
not 8192, so the claim as stated is false. -/
theorem C1_counterexample : reverse_count_p 0 (endBuffers 0 1) 8193 ≠ some (8192 * 1) := by
  rw [reverse_count_checkpoint 0 (by norm_num) 1 (by norm_num) (by norm_num)]
  decide

/-- C1 (amended): for each polynomial `p < 4` and checkpoint index `k` in 1..15,
`reverse_count_p p (_end_buffers[p][k])` returns exactly `8192 * k - 1` (fuel
8193 suffices, i.e. the loop returns within 8192 iterations).  The stored
checkpoint `k` is the register state reached after `8192 * k - 1` forward
steps from the seed, so the recovered count is `8192 * k - 1`, one less than
the claimed `8192 * k`. -/
theorem C1_checkpoint_exact (p k : Nat) (hp : p < 4) (hk1 : 1 ≤ k) (hk15 : k ≤ 15) :
    reverse_count_p p (endBuffers p k) 8193 = some (8192 * k - 1) :=
  reverse_count_checkpoint p hp k hk1 hk15

/-- C1 witness: the amended theorem applied at `p = 0`, `k = 1`. -/
theorem C1_checkpoint_exact_witness :
    reverse_count_p 0 (endBuffers 0 1) 8193 = some (8192 * 1 - 1) :=
  C1_checkpoint_exact 0 1 (by decide) (by decide) (by decide)

/-- C2 counterexample: starting from the state 8193 forward steps past the
seed (value 87670, polynomial 0), the loop terminates because the buffer
matches checkpoint entry `k = 1` after a reverse step (the second one), yet
the function returns 8193, not `8192 * 1 - 1 = 8191`: the returned value does
depend on how many reverse steps preceded the match, refuting the claim. -/
theorem C2_counterexample :
    revStep 0 ((loopBody 0 (87670, 0)).1) = endBuffers 0 1 ∧
    reverse_count_p 0 87670 8193 = some 8193 ∧ (8193 : Nat) ≠ 8192 * 1 - 1 := by
  refine ⟨by decide!, ?_, by decide⟩
  rw [show (87670:Nat) = traj 0 8193 from trajP0N8193.symm]
  exact reverse_count_traj 0 (by norm_num) 8193 (by norm_num)

/-- C2 (amended): when the buffer produced by the reverse step of an
iteration matches checkpoint entry `k`, the code *adds* `8192 * k - 1` to the
already-incremented raw counter (so the pair becomes
`(seed, count + 1 + 8192 * k - 1) = (seed, count + 8192 * k)`), and the loop
then returns that adjusted value on its next check; the returned value is
the raw per-step counter plus the checkpoint distance, not a constant. -/
theorem C2_match_adds (p buf c k fuel : Nat) (hp : p < 4) (hk1 : 1 ≤ k) (hk15 : k ≤ 15)
    (hbuf : buf ≠ endBuffers p 0) (hmatch : revStep p buf = endBuffers p k) :
    loopBody p (buf, c) = (endBuffers p 0, c + 8192 * k) ∧
    loopRun p (fuel + 2) (buf, c) = some (c + 8192 * k) :=
  ⟨loopBody_match p hp buf c k hk1 hk15 hmatch,
   loopRun_match p hp buf c k fuel hk1 hk15 hbuf hmatch⟩

/-- C2 witness: the amended theorem applied at `p = 0`,
`buf = 43835` (the state 8192 steps past the seed), `c = 1`, `k = 1`. -/
theorem C2_match_adds_witness :
    loopBody 0 (43835, 1) = (endBuffers 0 0, 1 + 8192 * 1) ∧
    loopRun 0 (0 + 2) (43835, 1) = some (1 + 8192 * 1) :=
  C2_match_adds 0 43835 1 1 0 (by decide) (by decide) (by decide) (by decide) (by decide!)

/-- C3: round-trip.  For every polynomial `p < 4` and every checkpoint step
value `s = 8192 * k`, `k = 0..15`, forward-stepping the seed `s` times and
then calling `reverse_count_p` recovers exactly `s` (fuel 8193: the loop
returns within 8192 iterations).  In particular `p = 0`, `s = 8192` is the
instance `k = 1`. -/
theorem C3_round_trip (p k : Nat) (hp : p < 4) (hk : k ≤ 15) :
    reverse_count_p p ((fwdStep p)^[8192 * k] 1) 8193 = some (8192 * k) :=
  reverse_count_traj p hp (8192 * k) (by omega)

/-- C3 witness: the round-trip theorem applied at `p = 0`, `k = 1`
(i.e. `s = 8192`, the spec's own example scenario). -/
theorem C3_round_trip_witness :
    reverse_count_p 0 ((fwdStep 0)^[8192 * 1] 1) 8193 = some (8192 * 1) :=
  C3_round_trip 0 1 (by decide) (by decide)

/-- C4: seed identity.  For every polynomial `p < 4` and any positive fuel,
`reverse_count_p p 1` returns 0: the masked buffer equals
`_end_buffers[p][0] = 1`, so the while loop exits immediately. -/
theorem C4_seed_identity (p fuel : Nat) (hp : p < 4) :
    reverse_count_p p 1 (fuel + 1) = some 0 := by
  unfold reverse_count_p
  rw [show (1:Nat) &&& 0x0001FFFFF = 1 from by decide]
  have h : ((1:Nat), (0:Nat)).1 = endBuffers p 0 := by
    rw [end_buffers_zero p hp]
  conv_lhs => unfold loopRun
  rw [if_pos h]

/-- C4 witness: the seed-identity theorem applied at `p = 0`, fuel 1. -/
theorem C4_seed_identity_witness : reverse_count_p 0 1 1 = some 0 :=
  C4_seed_identity 0 0 (by decide)

/-- C5: the per-iteration reverse transition `revStep` is a bijection on
17-bit register states for each polynomial `p < 4`: the forward-step
function `fwdStep` (shift left within 17 bits, insert the feedback parity)
composes with it to the identity in either order on every state `< 2^17`. -/
theorem C5_bijection (p s : Nat) (hp : p < 4) (hs : s < 2 ^ 17) :
    fwdStep p (revStep p s) = s ∧ revStep p (fwdStep p s) = s :=
  ⟨fwdStep_revStep p s hp hs, revStep_fwdStep p s hp hs⟩

/-- C5 witness: the bijection theorem applied at `p = 0`, `s = 1`. -/
theorem C5_bijection_witness :
    fwdStep 0 (revStep 0 1) = 1 ∧ revStep 0 (fwdStep 0 1) = 1 :=
  C5_bijection 0 1 (by decide) (by norm_num)

/-- C6: bounded work.  For every polynomial `p < 4` and every input whose
masked buffer is reachable by forward-stepping the seed, the loop returns
within fuel 8193, i.e. it executes at most 8192 = period/16 iterations. -/
theorem C6_bounded (p bits : Nat) (hp : p < 4)
    (h : ∃ n, (fwdStep p)^[n] 1 = bits &&& 0x0001FFFFF) :
    ∃ v, reverse_count_p p bits 8193 = some v := by
  obtain ⟨n, hn⟩ := h
  refine ⟨n % 131071, ?_⟩
  unfold reverse_count_p
  have hmask : bits &&& 0x0001FFFFF = traj p (n % 131071) := by
    rw [← hn]
    exact traj_mod p hp n
  rw [hmask]
  have h2 := loopRun_traj p hp (n % 131071) (by omega) 0 8193 (by
    by_cases hcase : n % 131071 ≤ 8191
    · rw [if_pos hcase]
      omega
    · rw [if_neg hcase]
      omega)
  simpa using h2

/-- C6 witness: the bounded-work theorem applied at `p = 0`, `bits = 1`
(reachable with `n = 0`). -/
theorem C6_bounded_witness : ∃ v, reverse_count_p 0 1 8193 = some v :=
  C6_bounded 0 1 (by decide) ⟨0, by decide⟩

/-- C7 counterexample: the claim says every `observed_bits` not on the
cycle makes the loop run forever.  But 131073 (= 0x20001, an extraneous
high bit plus the seed bit) is not on polynomial 0's cycle — every
trajectory state is < 2^17 — yet `reverse_count_p` terminates on it,
returning 131071. -/
theorem C7_counterexample : ¬ onCycle 0 131073 ∧ reverse_count_p 0 131073 8193 = some 131071 := by
  constructor
  · rintro ⟨n, hn⟩
    have h := traj_lt 0 n
    rw [hn] at h
    norm_num at h
  · exact reverse_count_131073

/-- C7 (amended): for the all-zero working buffer the loop really never
terminates: for every polynomial `p < 4` the zero buffer is a fixed point
of the loop body (the reverse step maps 0 to 0 and no checkpoint entry is
0), so after `n` iterations the state is `(0, c + n)`, and `loopRun`
returns `none` for every fuel value. -/
theorem C7_zero_diverges (p c n fuel : Nat) (hp : p < 4) :
    (loopBody p)^[n] (0, c) = (0, c + n) ∧ loopRun p fuel (0, c) = none :=
  ⟨loopBodyIter_zero p hp c n, loopRun_zero p hp fuel c⟩

/-- C7 witness: the zero-divergence theorem applied at `p = 0`, `c = 0`,
`n = 1`, fuel 1. -/
theorem C7_zero_diverges_witness :
    (loopBody 0)^[1] (0, 0) = (0, 0 + 1) ∧ loopRun 0 1 (0, 0) = none :=
  C7_zero_diverges 0 0 1 1 (by decide)

/-- C8 counterexample: the claim says the result depends only on
`bits &&& 0x1FFFF` (low 17 bits).  But the code masks with 0x1FFFFF (21
bits): on input 131073 = 0x20001 the function returns 131071, while on
`131073 &&& 0x1FFFF = 1` it returns 0. -/
theorem C8_counterexample :
    reverse_count_p 0 131073 8193 ≠ reverse_count_p 0 (131073 &&& 0x0001FFFF) 8193 := by
  rw [reverse_count_131073, show (131073:Nat) &&& 0x0001FFFF = 1 from by decide,
    show reverse_count_p 0 1 8193 = some 0 from
      reverse_count_traj 0 (by norm_num) 0 (by norm_num)]
  decide

/-- C8 (amended): the input is normalized by the code's actual mask, the
low 21 working bits: `reverse_count_p p bits fuel` always equals
`reverse_count_p p (bits &&& 0x1FFFFF) fuel`, so the result depends only
on the low 21 bits of `observed_bits` (not only on the low 17). -/
theorem C8_mask21 (p bits fuel : Nat) :
    reverse_count_p p bits fuel = reverse_count_p p (bits &&& 0x0001FFFFF) fuel := by
  unfold reverse_count_p
  rw [Nat.and_assoc, Nat.and_self]

/-- C9: index-bounds safety.  In the checked embedding, where every table
access returns `Option`, an index `p < 4` makes every access succeed — all
row indices used are 0..15 on 16-entry rows — so the checked run equals
`some` of the total run for every fuel and state; and for `p ≥ 4` the very
first access (the while-condition's read of `_end_buffers[p][0]`) is out
of bounds, so the checked run aborts with `none`: the function performs no
validation, and the precondition `p < 4` is needed from the first access. -/
theorem C9_bounds (p : Nat) :
    (p < 4 → ∀ fuel st, loopRunChk p fuel st = some (loopRun p fuel st)) ∧
    (4 ≤ p → ∀ fuel st, loopRunChk p (fuel + 1) st = none) :=
  ⟨fun hp fuel st => loopRunChk_eq p hp fuel st,
   fun hp fuel st => loopRunChk_oob p hp fuel st⟩

/-- C9 witness: the bounds theorem applied at `p = 0` (in range) and
`p = 4` (out of range), fuel 1, state (1, 0). -/
theorem C9_bounds_witness :
    loopRunChk 0 1 (1, 0) = some (loopRun 0 1 (1, 0)) ∧ loopRunChk 4 1 (1, 0) = none :=
  ⟨(C9_bounds 0).1 (by decide) 1 (1, 0), (C9_bounds 4).2 (by decide) 1 (1, 0)⟩

/-- C10: buffer-width invariant.  For every polynomial `p < 4` and every
incoming state, the buffer after a loop-body iteration is < 2^17 (the
shift masks with 0x1FFFE and shifts right, and the reconstructed bit goes
to position 16; a checkpoint match resets the buffer to the seed), and the
body's result depends only on the low 17 bits of the incoming buffer — so
bits 17-20 surviving the initial 21-bit mask can influence only the
initial seed-equality comparison, never any later state of the loop. -/
theorem C10_invariant (p b c : Nat) (hp : p < 4) :
    (loopBody p (b, c)).1 < 2 ^ 17 ∧ loopBody p (b &&& 0x0001FFFF, c) = loopBody p (b, c) :=
  ⟨loopBody_lt p hp (b, c), loopBody_low17 p b c⟩

/-- C10 witness: the invariant theorem applied at `p = 0`,
`b = 2097151 = 0x1FFFFF` (all 21 working bits set), `c = 0`. -/
theorem C10_invariant_witness :
    (loopBody 0 (2097151, 0)).1 < 2 ^ 17 ∧
    loopBody 0 (2097151 &&& 0x0001FFFF, 0) = loopBody 0 (2097151, 0) :=
  C10_invariant 0 2097151 0 (by decide)
